import Mathlib

/-!
# Ride Cab booking front end: booking flow, session shell, map and car catalogue

A shallow embedding of the booking state machine of `BookButton.js`, of the session shell
of `app.js`, of the map display of `Map.js` and of the car catalogue of `Cartypes.js`.

* React state cells become fields of a record; every event handler is a function from the
  state before the event to the state after it, and the updates made by one handler (or by
  one resumption of an `async` handler) are applied as a single transition.
* An `async` handler is split at its `await`: the part before it runs with the event, the
  part after it is a resumption that runs when the awaited timer has elapsed.  The values a
  handler read from its render (props, derived flags) travel with the suspended call.
* `Date.now()`, `new Date()` and `Math.random()` are inputs of the resumption; the random
  value is a rational number, arithmetic on it is exact.
* Console output, generated identifiers and callback invocations are appended to logs kept
  next to the component state so that "nothing happened" can be stated as an equality.
-/

namespace RideCab

/-! ## Data model -/

/-- Location record `{ name, lat, lng }` produced by the search bar. -/
structure Location where
  name : String
  lat : Rat
  lng : Rat
deriving DecidableEq

/-- Vehicle option of the car catalogue (`DEFAULT_TYPES` in `Cartypes.js`).  The fields the
booking code reads through `?.` or `??` are optional. -/
structure VehicleOption where
  id : String
  name : Option String
  description : String
  price : Option String
  eta : Option String
  seats : Option Nat
  rating : Rat
  features : List String
  icon : String
deriving DecidableEq

/-- Values of `flow` in `BookButton.js` (line 15) and of `booking.status` in `app.js`. -/
inductive Flow where
  | idle
  | confirm
  | loading
  | success
  | error
deriving DecidableEq, Repr

/-- The `bookingPayload` object built by `doBook` (`BookButton.js` lines 69-77).  The field
`timestamp` holds the instant read by `new Date()`, in milliseconds. -/
structure BookingPayload where
  bookingId : String
  timestamp : Nat
  pickup : Option Location
  drop : Option Location
  car : Option VehicleOption
  message : String
  metaSource : String
deriving DecidableEq

/-! ## Identifier generation (`genBookingId`, `makeBookingId`) -/

/-- Digit character used by `Number.prototype.toString(radix)`: `0-9` then `a-z`. -/
def digitChar36 (d : Nat) : Char :=
  if d < 10 then Char.ofNat (48 + d) else Char.ofNat (87 + d)

/-- `n.toString(radix)` for a non-negative integer `n`. -/
def toStringRadix (radix n : Nat) : List Char :=
  if n = 0 then ['0'] else ((Nat.digits radix n).reverse).map digitChar36

/-- `s.slice(-k)`: the last `k` characters, the whole string when it is shorter. -/
def sliceLast (k : Nat) (s : List Char) : List Char :=
  s.drop (s.length - k)

/-- `s.toUpperCase()`. -/
def toUpperCase (s : List Char) : List Char :=
  s.map Char.toUpper

/-- Conversion of an integer-valued number inside a template literal. -/
def numberToString (z : Int) : List Char :=
  if z < 0 then '-' :: toStringRadix 10 z.natAbs else toStringRadix 10 z.toNat

/-- `Math.floor(Math.random() * 900 + 100)` for the random value `rand`. -/
def randomSuffix (rand : Rat) : Int :=
  Int.floor (rand * 900 + 100)

/-- `genBookingId` of `BookButton.js` (lines 5-6) with `Date.now() = now` and
`Math.random() = rand`. -/
def genBookingId (now : Nat) (rand : Rat) : String :=
  String.mk (['R', 'D', '-'] ++ toUpperCase (sliceLast 6 (toStringRadix 36 now))
    ++ numberToString (randomSuffix rand))

/-- `makeBookingId` of `app.js` (lines 11-12): the same expression as `genBookingId`. -/
def makeBookingId (now : Nat) (rand : Rat) : String :=
  String.mk (['R', 'D', '-'] ++ toUpperCase (sliceLast 6 (toStringRadix 36 now))
    ++ numberToString (randomSuffix rand))

/-- Full match of the pattern `RD-[A-Z0-9]{6}\d{3}`. -/
def matchesBookingIdPattern (s : String) : Bool :=
  match s.data with
  | 'R' :: 'D' :: '-' :: rest =>
    rest.length == 9
      && (rest.take 6).all (fun c => c.isUpper || c.isDigit)
      && (rest.drop 6).all Char.isDigit
  | _ => false

/-- The six lowest base-36 digits of `t`, most significant first, in upper case. -/
def lastSixBase36Upper (t : Nat) : List Char :=
  [5, 4, 3, 2, 1, 0].map (fun i => (digitChar36 (t / 36 ^ i % 36)).toUpper)

/-! ## Booking flow (`BookButton.js`) -/

/-- Props of `BookButton` (lines 8-14).  `onBookRide` is absent or a function that either
returns or throws. -/
structure Props where
  pickupLocation : Option Location
  dropLocation : Option Location
  selectedCar : Option VehicleOption
  onBookRide : Option (BookingPayload → Except String Unit)

/-- Values read by one resumption of `doBook`: `Date.now()`, `new Date()`, `Math.random()`. -/
structure Clock where
  now : Nat
  stamp : Nat
  rand : Rat

/-- State of one `BookButton` instance: the three state cells (lines 15-17), whether the
auto-close timeout of the effect at lines 38-46 is pending, the suspended `doBook` calls
with the props of the render they were made from, and the logs. -/
structure BookButton where
  flow : Flow
  booking : Option BookingPayload
  errorMsg : Option String
  autoClose : Bool
  pending : List Props
  ids : List String
  notified : List BookingPayload
  console : List String

/-- State after the first render. -/
def BookButton.init : BookButton :=
  { flow := Flow.idle, booking := none, errorMsg := none, autoClose := false,
    pending := [], ids := [], notified := [], console := [] }

/-- Line 21: `Boolean(pickupLocation && dropLocation && selectedCar)`. -/
def isReady (p : Props) : Bool :=
  p.pickupLocation.isSome && p.dropLocation.isSome && p.selectedCar.isSome

/-- Lines 48-51. -/
def openConfirm (p : Props) (s : BookButton) : BookButton :=
  if !isReady p then s else { s with flow := Flow.confirm }

/-- Lines 53-56. -/
def cancelConfirm (s : BookButton) : BookButton :=
  { s with flow := Flow.idle, errorMsg := none }

/-- Lines 58-65: `doBook` up to its `await`; the call is suspended with the props it read. -/
def doBook (p : Props) (s : BookButton) : BookButton :=
  if !isReady p then s
  else { s with flow := Flow.loading, errorMsg := none, pending := s.pending ++ [p] }

/-- Line 75: the template literal of the message, with the optional chain on `selectedCar`
and the fallback text. -/
def bookingMessage (car : Option VehicleOption) : String :=
  "Driver arriving in " ++ ((car.bind (fun c => c.eta)).getD "a few mins")

/-- Lines 68-77: the booking record. -/
def bookingPayload (c : Clock) (p : Props) : BookingPayload :=
  { bookingId := genBookingId c.now c.rand
    timestamp := c.stamp
    pickup := p.pickupLocation
    drop := p.dropLocation
    car := p.selectedCar
    message := bookingMessage p.selectedCar
    metaSource := "client-sim" }

/-- Lines 82-89: the guarded call of `onBookRide` inside its own `try`/`catch`. -/
def notifyBooked (p : Props) (b : BookingPayload) (s : BookButton) : BookButton :=
  match p.onBookRide with
  | none => s
  | some f =>
    match f b with
    | Except.ok _ => { s with notified := s.notified ++ [b] }
    | Except.error e =>
      { s with notified := s.notified ++ [b],
               console := s.console ++ ["onBookRide threw: " ++ e] }

/-- Lines 63-94: `doBook` after its `await`, for the suspended call made with props `p`.
`awaited` is the outcome of the awaited promise; a rejection enters the outer `catch`. -/
def doBookResume (c : Clock) (awaited : Except String Unit) (p : Props) (s : BookButton) :
    BookButton :=
  match awaited with
  | Except.error e =>
    { s with errorMsg := some "Booking failed — try again.", flow := Flow.error,
             console := s.console ++ ["booking failed " ++ e] }
  | Except.ok _ =>
    let b := bookingPayload c p
    notifyBooked p b { s with booking := some b, flow := Flow.success, ids := s.ids ++ [b.bookingId] }

/-- Lines 105-109. -/
def resetAll (s : BookButton) : BookButton :=
  { s with flow := Flow.idle, booking := none, errorMsg := none }

/-- Lines 176-179: `onClick` of the primary button. -/
def primaryClick (p : Props) (s : BookButton) : BookButton :=
  if !isReady p then s
  else if s.flow = Flow.idle then openConfirm p s else s

/-- Lines 40-43: the callback of the auto-close timeout. -/
def autoCloseFire (s : BookButton) : BookButton :=
  { s with flow := Flow.idle, booking := none, autoClose := false }

/-- Events a `BookButton` instance can receive. -/
inductive Event where
  | clickPrimary
  | cancelConfirm
  | confirmPay
  | retry
  | dismissError
  | closeSuccess
  | copyBookingId
  | delayElapsed (c : Clock) (awaited : Except String Unit)
  | autoCloseTimeout

/-- When the render (lines 212-374) offers an event: the `disabled` attribute of the
primary button (line 180), the conditions under which the modal, the success card and the
error alert are rendered, a suspended call, a pending timeout.  The modal reads
`pickupLocation.name` and `dropLocation.name` (line 258). -/
def enabled (p : Props) (s : BookButton) : Event → Bool
  | Event.clickPrimary => isReady p && s.flow != Flow.loading && s.flow != Flow.success
  | Event.cancelConfirm =>
    s.flow == Flow.confirm && p.pickupLocation.isSome && p.dropLocation.isSome
  | Event.confirmPay =>
    s.flow == Flow.confirm && p.pickupLocation.isSome && p.dropLocation.isSome
  | Event.retry => s.flow == Flow.error
  | Event.dismissError => s.flow == Flow.error
  | Event.closeSuccess => s.flow == Flow.success && s.booking.isSome
  | Event.copyBookingId => s.flow == Flow.success && s.booking.isSome
  | Event.delayElapsed _ _ => !s.pending.isEmpty
  | Event.autoCloseTimeout => s.autoClose

/-- Handler run for an event, with the props `p` of the current render. -/
def handle (p : Props) (s : BookButton) : Event → BookButton
  | Event.clickPrimary => primaryClick p s
  | Event.cancelConfirm => cancelConfirm s
  | Event.confirmPay => doBook p s
  | Event.retry => doBook p s
  | Event.dismissError => resetAll s
  | Event.closeSuccess => resetAll s
  | Event.copyBookingId => s
  | Event.delayElapsed c awaited =>
    match s.pending with
    | [] => s
    | q :: rest => doBookResume c awaited q { s with pending := rest }
  | Event.autoCloseTimeout => autoCloseFire s

/-- The effect at lines 38-46, keyed on `flow`: when `flow` changed, the clean-up of the
previous run clears the timeout armed on entering `success`, and a new timeout is armed when
the new value is `success`. -/
def autoCloseEffect (old : Flow) (s : BookButton) : BookButton :=
  if s.flow = old then s
  else if s.flow = Flow.success then { s with autoClose := true }
  else if old = Flow.success then { s with autoClose := false }
  else s

/-- One transition of the component: the handler, then the effect. -/
def step (p : Props) (s : BookButton) (e : Event) : BookButton :=
  autoCloseEffect s.flow (handle p s e)

/-- States reachable from the first render through events the render offers, under any
props at each event. -/
inductive Reachable : BookButton → Prop where
  | init : Reachable BookButton.init
  | step (p : Props) (e : Event) (s : BookButton) :
      Reachable s → enabled p s e = true → Reachable (step p s e)

/-- Whether the program can produce the event.  The promise awaited at line 65 is
`new Promise((res) => setTimeout(res, simulateDelay))`: its executor only schedules `res`,
never calls a reject function and does not throw, so the `await` never completes with a
rejection; the statements after it (lines 68-80) do not throw either and the callback has its
own `try`/`catch`.  Every other event is produced by the user or by a timer. -/
def Event.occurs : Event → Bool
  | Event.delayElapsed _ (Except.error _) => false
  | _ => true

/-- States the component reaches in the program: from the first render through events the
render offers and the program can produce, under any props at each event. -/
inductive ProgramReachable : BookButton → Prop where
  | init : ProgramReachable BookButton.init
  | step (p : Props) (e : Event) (s : BookButton) :
      ProgramReachable s → enabled p s e = true → Event.occurs e = true →
      ProgramReachable (step p s e)

/-! ## Session shell (`MainApp` in `app.js`) -/

/-- The `booking` state cell of `MainApp` (line 24). -/
structure ShellBooking where
  status : Flow
  bookingId : Option String
  message : Option String
deriving DecidableEq

/-- Values a suspended `handleBookRide` call carries from the render it was made from. -/
structure SuspendedRide where
  pickupLocation : Option Location
  dropLocation : Option Location
  selectedCar : Option VehicleOption
  extra : Option BookingPayload
deriving DecidableEq

/-- State of `MainApp`: the state cells (lines 18-24), whether the toast timeout of the
effect at lines 43-48 is pending, the suspended `handleBookRide` calls, and the logs. -/
structure Shell where
  pickupLocation : Option Location
  dropLocation : Option Location
  selectedCar : Option VehicleOption
  showSidebar : Bool
  booking : ShellBooking
  toast : Bool
  pending : List SuspendedRide
  ids : List String
  console : List String
  logouts : Nat
deriving DecidableEq

/-- The record `{ status: 'idle', bookingId: null, message: null }`. -/
def ShellBooking.idle : ShellBooking :=
  { status := Flow.idle, bookingId := none, message := none }

/-- State after the first render. -/
def Shell.init : Shell :=
  { pickupLocation := none, dropLocation := none, selectedCar := none, showSidebar := false,
    booking := ShellBooking.idle, toast := false, pending := [], ids := [], console := [],
    logouts := 0 }

/-- Line 27: `canBook`. -/
def canBook (r : Shell) : Bool :=
  r.pickupLocation.isSome && r.dropLocation.isSome && r.selectedCar.isSome
    && r.booking.status != Flow.loading

/-- Lines 50-53. -/
def handlePickupSelect (location : Option Location) (s : Shell) : Shell :=
  { s with pickupLocation := location, selectedCar := none }

/-- Lines 55-58. -/
def handleDropSelect (location : Option Location) (s : Shell) : Shell :=
  { s with dropLocation := location, selectedCar := none }

/-- Lines 60-62. -/
def handleCarSelect (car : Option VehicleOption) (s : Shell) : Shell :=
  { s with selectedCar := car }

/-- Lines 64-69: `handleBookRide` up to its `await`.  `r` is the render the handler was
taken from (it supplies `canBook` and the values the suspended call keeps), `s` the state
the updates are applied to. -/
def handleBookRide (r : Shell) (extra : Option BookingPayload) (s : Shell) : Shell :=
  if !canBook r then s
  else
    { s with booking := { status := Flow.loading, bookingId := none, message := none },
             pending := s.pending ++
               [{ pickupLocation := r.pickupLocation, dropLocation := r.dropLocation,
                  selectedCar := r.selectedCar, extra := extra }] }

/-- Line 74: the template literal of the toast message; a car without a name is
converted to a string as an object. -/
def shellMessage (car : Option VehicleOption) : String :=
  "Booked " ++
    (match car with
     | none => "Ride"
     | some c =>
       match c.name with
       | some n => n
       | none => "[object Object]")

/-- Lines 68-81: `handleBookRide` after its `await`, for the suspended call `q`. -/
def handleBookRideResume (c : Clock) (awaited : Except String Unit) (q : SuspendedRide)
    (s : Shell) : Shell :=
  match awaited with
  | Except.error e =>
    { s with booking := { status := Flow.error, bookingId := none,
                          message := some "Booking failed. Try again." },
             console := s.console ++ ["Booking error " ++ e] }
  | Except.ok _ =>
    let bookingId := makeBookingId c.now c.rand
    { s with booking := { status := Flow.success, bookingId := some bookingId,
                          message := some (shellMessage q.selectedCar) },
             selectedCar := none,
             ids := s.ids ++ [bookingId],
             console := s.console ++ ["Ride booked: " ++ bookingId] }

/-- Lines 88-94. -/
def handleLogout (s : Shell) : Shell :=
  { s with logouts := s.logouts + 1, pickupLocation := none, dropLocation := none,
           selectedCar := none, booking := ShellBooking.idle }

/-- Line 45: the callback of the toast timeout. -/
def toastFire (s : Shell) : Shell :=
  { s with booking := ShellBooking.idle, toast := false }

/-- Events `MainApp` can receive. -/
inductive ShellEvent where
  | pickupSelect (location : Option Location)
  | dropSelect (location : Option Location)
  | carSelect (car : Option VehicleOption)
  | bookRide (r : Shell) (extra : Option BookingPayload)
  | delayElapsed (c : Clock) (awaited : Except String Unit)
  | logout
  | toastTimeout
  | toggleSidebar
  | closeSidebar

/-- An event needs a suspended call or a pending timeout where it consumes one. -/
def shellEnabled (s : Shell) : ShellEvent → Bool
  | ShellEvent.delayElapsed _ _ => !s.pending.isEmpty
  | ShellEvent.toastTimeout => s.toast
  | _ => true

/-- Handler run for an event. -/
def shellHandle (s : Shell) : ShellEvent → Shell
  | ShellEvent.pickupSelect l => handlePickupSelect l s
  | ShellEvent.dropSelect l => handleDropSelect l s
  | ShellEvent.carSelect c => handleCarSelect c s
  | ShellEvent.bookRide r extra => handleBookRide r extra s
  | ShellEvent.delayElapsed c awaited =>
    match s.pending with
    | [] => s
    | q :: rest => handleBookRideResume c awaited q { s with pending := rest }
  | ShellEvent.logout => handleLogout s
  | ShellEvent.toastTimeout => toastFire s
  | ShellEvent.toggleSidebar => { s with showSidebar := !s.showSidebar }
  | ShellEvent.closeSidebar => { s with showSidebar := false }

/-- Whether the toast effect (line 44) arms a timeout for a status. -/
def toastStatus (f : Flow) : Bool :=
  f == Flow.success || f == Flow.error

/-- The effect at lines 43-48, keyed on `booking.status`: when the status changed, the
clean-up of the previous run clears its timeout and a new one is armed for `success` and
`error`. -/
def toastEffect (old : Flow) (s : Shell) : Shell :=
  if s.booking.status = old then s
  else if toastStatus s.booking.status then { s with toast := true }
  else if toastStatus old then { s with toast := false }
  else s

/-- One transition of the shell: the handler, then the effect. -/
def shellStep (s : Shell) (e : ShellEvent) : Shell :=
  toastEffect s.booking.status (shellHandle s e)

/-- Shell states reachable from the first render. -/
inductive ShellReachable : Shell → Prop where
  | init : ShellReachable Shell.init
  | step (e : ShellEvent) (s : Shell) :
      ShellReachable s → shellEnabled s e = true → ShellReachable (shellStep s e)

/-! ## Wiring of `BookButton` into the shell (`app.js` lines 166 and 182) -/

/-- Props the render `r` of the shell passes to `BookButton`.  `onBookRide` is the `async`
function `handleBookRide`: the call returns a promise and does not throw. -/
def propsOf (r : Shell) : Props :=
  { pickupLocation := r.pickupLocation, dropLocation := r.dropLocation,
    selectedCar := r.selectedCar, onBookRide := some (fun _ => Except.ok ()) }

/-- Effect on the shell of the `onBookRide` calls a `BookButton` transition made: each
record notified between `before` and `after` is passed to the `handleBookRide` of the
render `r` the props came from. -/
def forwardToShell (r : Shell) (before after : BookButton) (s : Shell) : Shell :=
  (after.notified.drop before.notified.length).foldl
    (fun acc b => shellStep acc (ShellEvent.bookRide r (some b))) s

/-- A booking made in a `BookButton` wired to the shell: the render `r` of the shell supplies
the props, the user opens the confirmation and confirms, the delay of the booking flow
elapses with clock `c1`, the `onBookRide` call reaches the shell in state `cur`, and the
delay of the shell elapses with clock `c2`.  Returns both final states. -/
def bookAndForward (r cur : Shell) (c1 c2 : Clock) : BookButton × Shell :=
  let p := propsOf r
  let b2 := step p (step p BookButton.init Event.clickPrimary) Event.confirmPay
  let b3 := step p b2 (Event.delayElapsed c1 (Except.ok ()))
  let s1 := forwardToShell r b2 b3 cur
  (b3, shellStep s1 (ShellEvent.delayElapsed c2 (Except.ok ())))

/-! ## Concrete inputs -/

/-- Pickup of the worked example: Park St. -/
def parkSt : Location := { name := "Park St", lat := 1080 / 100, lng := 7870 / 100 }

/-- Drop of the worked example: Mall. -/
def mall : Location := { name := "Mall", lat := 1079 / 100, lng := 7871 / 100 }

/-- First entry of `DEFAULT_TYPES` (`Cartypes.js` lines 6-16). -/
def economy : VehicleOption :=
  { id := "economy", name := some "RideEco", description := "Affordable rides",
    price := some "₹180", eta := some "3 min", seats := some 4, rating := 48 / 10,
    features := ["AC", "Music"], icon := "🚗" }

/-- A shell render with the full selection of the worked example and no booking yet. -/
def readyShell : Shell :=
  { Shell.init with pickupLocation := some parkSt, dropLocation := some mall,
                    selectedCar := some economy }

/-- Props with the full selection of the worked example. -/
def readyProps : Props := propsOf readyShell

/-- Props without any selection and without callback. -/
def emptyProps : Props :=
  { pickupLocation := none, dropLocation := none, selectedCar := none, onBookRide := none }

/-- Clock values of the booking flow in the worked example. -/
def clockA : Clock := { now := 1762290000000, stamp := 1762290000000, rand := 1 / 2 }

/-- Clock values of the shell, 1100 ms later. -/
def clockB : Clock := { now := 1762290001100, stamp := 1762290001100, rand := 1 / 4 }

/-- The `success` state the booking flow reaches in the worked example. -/
def bookedButton : BookButton :=
  step readyProps
    (step readyProps (step readyProps BookButton.init Event.clickPrimary) Event.confirmPay)
    (Event.delayElapsed clockA (Except.ok ()))

/-- Clock values of the second `BookButton` instance, confirmed 600 ms after the first. -/
def clockC : Clock := { now := 1762290000600, stamp := 1762290000600, rand := 3 / 4 }

/-- Clock values of the shell for the second `handleBookRide` call, 1100 ms after it. -/
def clockD : Clock := { now := 1762290001700, stamp := 1762290001700, rand := 1 / 8 }

/-- A `BookButton` instance the user has opened and confirmed under the props of the shell
render `r`: its `doBook` call is suspended and keeps the `onBookRide` of that render. -/
def confirmedButton (r : Shell) : BookButton :=
  step (propsOf r) (step (propsOf r) BookButton.init Event.clickPrimary) Event.confirmPay

/-- The shell renders two `BookButton` instances with the same props (`app.js` line 166 in
the sidebar, line 182 in the bottom panel).  Both are confirmed under the render `r`; the
delay of the first elapses with clock `cA` and its `onBookRide` call reaches the shell in
state `r`. -/
def twoButtonsFirstCall (r : Shell) (cA : Clock) : Shell :=
  forwardToShell r (confirmedButton r)
    (step (propsOf r) (confirmedButton r) (Event.delayElapsed cA (Except.ok ()))) r

/-- The delay of the second instance elapses with clock `cB`; its `onBookRide` is the
`handleBookRide` of the render `r` it was confirmed under, and the call reaches the shell in
the state the first call left. -/
def twoButtonsSecondCall (r : Shell) (cA cB : Clock) : Shell :=
  forwardToShell r (confirmedButton r)
    (step (propsOf r) (confirmedButton r) (Event.delayElapsed cB (Except.ok ())))
    (twoButtonsFirstCall r cA)

/-- The delays of the two suspended `handleBookRide` calls elapse with clocks `c1` and
`c2`. -/
def twoButtonsDone (r : Shell) (cA cB c1 c2 : Clock) : Shell :=
  shellStep
    (shellStep (twoButtonsSecondCall r cA cB) (ShellEvent.delayElapsed c1 (Except.ok ())))
    (ShellEvent.delayElapsed c2 (Except.ok ()))

/-! ## Invariants -/

/-- Invariant of the booking flow: a record is held exactly in `success`, the auto-close
timeout is pending only in `success`, and a call is suspended only in `loading`, one at
most. -/
def flowInvariant (s : BookButton) : Prop :=
  (s.booking.isSome = true ↔ s.flow = Flow.success)
    ∧ (s.autoClose = true → s.flow = Flow.success)
    ∧ (s.pending.length = 0 ∨ (s.flow = Flow.loading ∧ s.pending.length = 1))

/-- Invariant of the shell's booking cell: an identifier is held exactly in `success`. -/
def shellInvariant (s : Shell) : Prop :=
  s.booking.bookingId.isSome = true ↔ s.booking.status = Flow.success

/-! ## Transitions of the booking flow -/

/-- The pairs (source, target) of the flow diagram as the handlers implement it. -/
def flowTransitions : List (Flow × Flow) :=
  [(Flow.idle, Flow.confirm), (Flow.confirm, Flow.idle), (Flow.confirm, Flow.loading),
   (Flow.loading, Flow.success), (Flow.loading, Flow.error), (Flow.error, Flow.loading),
   (Flow.success, Flow.idle), (Flow.error, Flow.idle)]

/-- Position of a flow value along the forward path idle, confirm, loading, then success
or error. -/
def flowRank : Flow → Nat
  | Flow.idle => 0
  | Flow.confirm => 1
  | Flow.loading => 2
  | Flow.success => 3
  | Flow.error => 3

/-- The `confirm` state of the worked example. -/
def confirmingButton : BookButton :=
  step readyProps BookButton.init Event.clickPrimary

/-! ## Timer handles and teardown -/

/-- A mounted component together with the handle of its auto-dismiss timeout: `armedBy` is
`some f` while a timeout armed by the effect run for status `f` is pending, and `mounted`
turns false at teardown. -/
structure Mounted (σ : Type) where
  state : σ
  armedBy : Option Flow
  mounted : Bool

/-- An event of the component or its teardown (unmount). -/
inductive Lifecycle (ε : Type) where
  | event (e : ε)
  | teardown

/-- The handle after an effect keyed on the status has run: nothing happens when the status
is unchanged; otherwise the clean-up of the previous run clears the timeout it armed and the
new run arms one when `arms` holds for the new status. -/
def rearm (arms : Flow → Bool) (old new : Flow) (h : Option Flow) : Option Flow :=
  if new = old then h
  else if arms new then some new
  else if arms old then none
  else h

/-- The statuses for which the effect of `BookButton.js` (line 39) arms the timeout. -/
def autoCloseStatus (f : Flow) : Bool :=
  f == Flow.success

/-- The handle once the handler of event `e` has run: an expiry consumes it. -/
def buttonHandleAfter (e : Event) (h : Option Flow) : Option Flow :=
  match e with
  | Event.autoCloseTimeout => none
  | _ => h

/-- The handle once the handler of event `e` has run: an expiry consumes it. -/
def shellHandleAfter (e : ShellEvent) (h : Option Flow) : Option Flow :=
  match e with
  | ShellEvent.toastTimeout => none
  | _ => h

/-- A mounted `BookButton` offers what its render offers, and teardown. -/
def buttonEnabledM (p : Props) (m : Mounted BookButton) : Lifecycle Event → Bool
  | Lifecycle.event e => m.mounted && enabled p m.state e
  | Lifecycle.teardown => m.mounted

/-- Transition of a mounted `BookButton`.  An expiry consumes the handle before the effect
runs; teardown runs the clean-ups at lines 26-28 and 44, which clear the timeout. -/
def buttonStepM (p : Props) (m : Mounted BookButton) : Lifecycle Event → Mounted BookButton
  | Lifecycle.event e =>
    { state := step p m.state e
      armedBy := rearm autoCloseStatus m.state.flow (step p m.state e).flow
        (buttonHandleAfter e m.armedBy)
      mounted := m.mounted }
  | Lifecycle.teardown =>
    { state := { m.state with autoClose := false }, armedBy := none, mounted := false }

/-- Mounted `BookButton` states reachable from the first render. -/
inductive ButtonReachableM : Mounted BookButton → Prop where
  | init : ButtonReachableM { state := BookButton.init, armedBy := none, mounted := true }
  | step (p : Props) (l : Lifecycle Event) (m : Mounted BookButton) :
      ButtonReachableM m → buttonEnabledM p m l = true → ButtonReachableM (buttonStepM p m l)

/-- A mounted shell offers its events, and teardown. -/
def shellEnabledM (m : Mounted Shell) : Lifecycle ShellEvent → Bool
  | Lifecycle.event e => m.mounted && shellEnabled m.state e
  | Lifecycle.teardown => m.mounted

/-- Transition of a mounted shell.  Teardown runs the clean-up at line 46. -/
def shellStepM (m : Mounted Shell) : Lifecycle ShellEvent → Mounted Shell
  | Lifecycle.event e =>
    { state := shellStep m.state e
      armedBy := rearm toastStatus m.state.booking.status (shellStep m.state e).booking.status
        (shellHandleAfter e m.armedBy)
      mounted := m.mounted }
  | Lifecycle.teardown =>
    { state := { m.state with toast := false }, armedBy := none, mounted := false }

/-- Mounted shell states reachable from the first render. -/
inductive ShellReachableM : Mounted Shell → Prop where
  | init : ShellReachableM { state := Shell.init, armedBy := none, mounted := true }
  | step (l : Lifecycle ShellEvent) (m : Mounted Shell) :
      ShellReachableM m → shellEnabledM m l = true → ShellReachableM (shellStepM m l)

/-- Invariant of the timer handle: the flag of the component says whether a timeout is
pending, and a pending timeout was armed by the current status, one for which the effect
arms, in a mounted component. -/
def timerInvariant (arms : Flow → Bool) (status : Flow) (flag : Bool) (m : Option Flow)
    (mounted : Bool) : Prop :=
  (flag = true ↔ m.isSome = true)
    ∧ (∀ f, m = some f → mounted = true ∧ f = status ∧ arms f = true)

/-- The mounted booking flow of the worked example after the booking has completed. -/
def bookedMounted : Mounted BookButton :=
  buttonStepM readyProps
    (buttonStepM readyProps
      (buttonStepM readyProps { state := BookButton.init, armedBy := none, mounted := true }
        (Lifecycle.event Event.clickPrimary))
      (Lifecycle.event Event.confirmPay))
    (Lifecycle.event (Event.delayElapsed clockA (Except.ok ())))

/-! ## Map display (`Map.js`) -/

/-- A live vehicle as held in `cars`.  A coordinate is `none` when it is NaN. -/
structure LiveVehicle where
  id : String
  type : String
  lat : Option Rat
  lng : Option Rat
  driver : String
  color : String
  metaData : Option String
deriving DecidableEq

/-- `FALLBACK_CARS` (lines 16-20). -/
def FALLBACK_CARS : List LiveVehicle :=
  [{ id := "c1", type := "economy", lat := some (10792 / 1000), lng := some (78703 / 1000),
     driver := "Anu", color := "#8B5CF6", metaData := none },
   { id := "c2", type := "premium", lat := some (10791 / 1000), lng := some (78706 / 1000),
     driver := "Ravi", color := "#F59E0B", metaData := none },
   { id := "c3", type := "suv", lat := some (10789 / 1000), lng := some (78705 / 1000),
     driver := "Sita", color := "#EF4444", metaData := none }]

/-- A record of the vehicle feed; every field may be absent.  `lat` and `lng` hold the value
of `Number(c.lat)` and `Number(c.lng)`, `none` when it is NaN. -/
structure FeedRecord where
  id : Option String
  type : Option String
  lat : Option Rat
  lng : Option Rat
  driver : Option String
  name : Option String
  color : Option String
  metaData : Option String
deriving DecidableEq

/-- An error object: its `name` and its `message`. -/
structure JsError where
  name : String
  message : String
deriving DecidableEq

/-- `String(err)` for an error object (`Error.prototype.toString`). -/
def errorToString (e : JsError) : String :=
  if e.name = "" then e.message
  else if e.message = "" then e.name
  else e.name ++ ": " ++ e.message

/-- Line 148: `err.message || String(err)`. -/
def errorText (e : JsError) : String :=
  if e.message = "" then errorToString e else e.message

/-- The value `res.json()` resolves to: an array of items, each a record or null, or a value
that is not an array. -/
inductive FeedBody where
  | notArray
  | array (items : List (Option FeedRecord))

/-- What one poll of the vehicle feed meets: `fetch` rejects, or it resolves to a response
with its `ok` flag, its status and the outcome of `res.json()`. -/
inductive FeedOutcome where
  | fetchRejected (e : JsError)
  | response (ok : Bool) (status : Nat) (body : Except JsError FeedBody)

/-- Lines 135-141: the normalized vehicle for the feed record `c` at index `i`. -/
def normalize (c : FeedRecord) (i : Nat) : LiveVehicle :=
  { id := c.id.getD ("car_" ++ String.mk (toStringRadix 10 i))
    type := c.type.getD "economy"
    lat := c.lat
    lng := c.lng
    driver := (c.driver.orElse (fun _ => c.name)).getD "Driver"
    color := c.color.getD
      (if c.type = some "premium" then "#F59E0B"
       else if c.type = some "suv" then "#EF4444" else "#8B5CF6")
    metaData := some (c.metaData.getD "\x7b\x7d") }

/-- Line 134: the `map` over the items, from index `i` on; reading a field of a null item
throws a `TypeError`. -/
def normalizeFrom : Nat → List (Option FeedRecord) → Except JsError (List LiveVehicle)
  | _, [] => Except.ok []
  | _, none :: _ =>
    Except.error { name := "TypeError", message := "Cannot read properties of null" }
  | i, some c :: rest =>
    match normalizeFrom (i + 1) rest with
    | Except.error e => Except.error e
    | Except.ok l => Except.ok (normalize c i :: l)

/-- Lines 130-143: the `try` block of `fetchCars`, up to the value passed to `setCars`. -/
def fetchCarsTry : FeedOutcome → Except JsError (List LiveVehicle)
  | FeedOutcome.fetchRejected e => Except.error e
  | FeedOutcome.response ok status body =>
    if !ok then
      Except.error { name := "Error", message := "HTTP " ++ String.mk (toStringRadix 10 status) }
    else
      match body with
      | Except.error e => Except.error e
      | Except.ok data =>
        match normalizeFrom 0 (match data with
            | FeedBody.array items => items
            | FeedBody.notArray => []) with
        | Except.error e => Except.error e
        | Except.ok normalized =>
          if normalized.length = 0 then Except.error { name := "Error", message := "no-cars" }
          else Except.ok normalized

/-- State of the `Map` component (lines 116-120) and its console. -/
structure MapState where
  cars : List LiveVehicle
  loading : Bool
  error : Option String
  mapCenter : Option Rat × Option Rat
  selectedDriver : Option LiveVehicle
  console : List String
deriving DecidableEq

/-- State after the first render. -/
def MapState.init : MapState :=
  { cars := [], loading := true, error := none,
    mapCenter := (some (107905 / 10000), some (787047 / 10000)),
    selectedDriver := none, console := [] }

/-- Lines 127-128: `fetchCars` up to its first `await`. -/
def fetchCarsStart (s : MapState) : MapState :=
  { s with loading := true, error := none }

/-- Lines 129-151: `fetchCars` once the feed has answered with outcome `o`. -/
def fetchCarsSettle (o : FeedOutcome) (s : MapState) : MapState :=
  match fetchCarsTry o with
  | Except.ok normalized => { s with cars := normalized, loading := false }
  | Except.error e =>
    { s with cars := FALLBACK_CARS, error := some (errorText e), loading := false,
             console := s.console ++ ["cars API failed, using fallback " ++ errorToString e] }

/-- One run of `fetchCars` (lines 126-152) that meets the outcome `o`. -/
def fetchCars (o : FeedOutcome) (s : MapState) : MapState :=
  fetchCarsSettle o (fetchCarsStart s)

/-- Line 277: the offline indicator is rendered when `error` is truthy. -/
def offlineIndicator (s : MapState) : Bool :=
  match s.error with
  | none => false
  | some t => t != ""

/-- Sum of two numbers; NaN propagates. -/
def jsAdd (a b : Option Rat) : Option Rat :=
  match a, b with
  | some x, some y => some (x + y)
  | _, _ => none

/-- Quotient of a number by the length `n` of a non-empty array. -/
def jsDivLength (a : Option Rat) (n : Nat) : Option Rat :=
  a.map (fun x => x / n)

/-- Lines 173-179: `onClusterClick`. -/
def onClusterClick (cluster : Option (List LiveVehicle)) (s : MapState) : MapState :=
  match cluster with
  | none => s
  | some c =>
    if c.length ≤ 1 then s
    else
      { s with mapCenter :=
          (jsDivLength (c.foldl (fun acc p => jsAdd acc p.lat) (some 0)) c.length,
           jsDivLength (c.foldl (fun acc p => jsAdd acc p.lng) (some 0)) c.length) }

/-- Lines 166-170: the body of the effect keyed on `pickupLocation`; a coordinate is truthy
when it is not zero. -/
def centerOnPickup (pickupLocation : Option Location) (s : MapState) : MapState :=
  match pickupLocation with
  | none => s
  | some l =>
    if l.lat != 0 && l.lng != 0 then { s with mapCenter := (some l.lat, some l.lng) }
    else s

/-- Events the `Map` component can receive. -/
inductive MapEvent where
  | pickupChanged (pickupLocation : Option Location)
  | clusterClick (cluster : Option (List LiveVehicle))
  | fetchStarted
  | fetchSettled (o : FeedOutcome)
  | markerClick (car : LiveVehicle)
  | mapClick
  | closeDriver

/-- Whether an event is one of the two that call `setMapCenter`. -/
def MapEvent.recenters : MapEvent → Bool
  | MapEvent.pickupChanged _ => true
  | MapEvent.clusterClick _ => true
  | _ => false

/-- Handler run for an event. -/
def mapStep (s : MapState) : MapEvent → MapState
  | MapEvent.pickupChanged l => centerOnPickup l s
  | MapEvent.clusterClick c => onClusterClick c s
  | MapEvent.fetchStarted => fetchCarsStart s
  | MapEvent.fetchSettled o => fetchCarsSettle o s
  | MapEvent.markerClick car => { s with selectedDriver := some car }
  | MapEvent.mapClick => { s with selectedDriver := none }
  | MapEvent.closeDriver => { s with selectedDriver := none }

/-- Arithmetic mean of a list of rationals. -/
def mean (xs : List Rat) : Rat :=
  xs.sum / xs.length

/-- The colour the feed normalization assigns to a vehicle type. -/
def colorForType (t : String) : String :=
  if t = "premium" then "#F59E0B" else if t = "suv" then "#EF4444" else "#8B5CF6"

/-! ## Proximity clustering (`clusterNearby`, `Map.js` lines 67-103)

`haversine` (lines 73-85) is floating-point trigonometry; the clustering only compares its
value with the threshold through `<=`, so the distance function is a parameter here, with
values in any type that has a decidable `≤`: a linear order, or the numbers of JavaScript,
where a comparison with NaN is false. -/

section Clustering

variable {α : Type} {D : Type} [LE D] [DecidableRel ((· ≤ ·) : D → D → Prop)]

/-- Lines 93-98: one iteration of the inner loop for the point `jp.2` at index `jp.1`;
`acc` is the cluster being built and the set `used`. -/
def absorb (haversine : α → α → D) (distanceMeters : D) (base : α)
    (acc : List α × List Nat) (jp : Nat × α) : List α × List Nat :=
  if jp.1 ∈ acc.2 then acc
  else if haversine base jp.2 ≤ distanceMeters then (acc.1 ++ [jp.2], acc.2 ++ [jp.1])
  else acc

/-- Lines 88-100: one iteration of the outer loop for the point `ib.2` at index `ib.1`;
`st` is `clusters` and the set `used`.  The inner loop runs over the indices after
`ib.1`. -/
def clusterFrom (haversine : α → α → D) (distanceMeters : D) (points : List α)
    (st : List (List α) × List Nat) (ib : Nat × α) : List (List α) × List Nat :=
  if ib.1 ∈ st.2 then st
  else
    let r := ((points.enum).drop (ib.1 + 1)).foldl (absorb haversine distanceMeters ib.2)
      ([ib.2], st.2 ++ [ib.1])
    (st.1 ++ [r.1], r.2)

/-- `clusterNearby` (lines 67-103).  `points` is `none` for a null or undefined argument:
the guard at line 68 then calls `points.map`, which throws. -/
def clusterNearby (haversine : α → α → D) (points : Option (List α)) (distanceMeters : D) :
    Except String (List (List α)) :=
  match points with
  | none => Except.error "TypeError: Cannot read properties of null (reading 'map')"
  | some ps =>
    if ps.length ≤ 1 then Except.ok (ps.map (fun p => [p]))
    else Except.ok ((ps.enum.foldl (clusterFrom haversine distanceMeters ps) ([], [])).1)

/-- The grouping rule in the words of the specification: the first point not yet clustered
starts a cluster and takes every later point not yet clustered that lies within the
threshold of it; the rule then continues on the points left over. -/
def greedyClusters (dist : α → α → D) (threshold : D) : List α → List (List α)
  | [] => []
  | seed :: rest =>
    (seed :: rest.filter (fun p => decide (dist seed p ≤ threshold)))
      :: greedyClusters dist threshold
          (rest.filter (fun p => !decide (dist seed p ≤ threshold)))
termination_by l => l.length
decreasing_by
  simp_wf
  exact Nat.lt_succ_of_le (List.length_filter_le _ _)

end Clustering

/-- Distance on a line of integer positions, used for concrete inputs. -/
def lineDist (a b : Int) : Int :=
  |a - b|

/-- A pickup on the equator: its latitude is 0. -/
def equatorPickup : Location := { name := "Equator", lat := 0, lng := 787 / 10 }

/-- A feed record that carries only its type. -/
def bareSuv : FeedRecord :=
  { id := none, type := some "suv", lat := some (1079 / 100), lng := some (787 / 10),
    driver := none, name := none, color := none, metaData := none }

/-- A number as `haversine` returns it: NaN or a value. -/
inductive JsNumber where
  | nan
  | num (x : Rat)
deriving DecidableEq

/-- The comparison `a <= b` of two numbers: false when either is NaN. -/
def JsNumber.le : JsNumber → JsNumber → Prop
  | JsNumber.num x, JsNumber.num y => x ≤ y
  | JsNumber.num _, JsNumber.nan => False
  | JsNumber.nan, _ => False

/-- The comparison `a < b` of two numbers: false when either is NaN. -/
def JsNumber.lt : JsNumber → JsNumber → Prop
  | JsNumber.num x, JsNumber.num y => x < y
  | JsNumber.num _, JsNumber.nan => False
  | JsNumber.nan, _ => False

instance JsNumber.instLE : LE JsNumber := ⟨JsNumber.le⟩

instance JsNumber.instLT : LT JsNumber := ⟨JsNumber.lt⟩

instance JsNumber.decLe : DecidableRel ((· ≤ ·) : JsNumber → JsNumber → Prop)
  | JsNumber.num x, JsNumber.num y => inferInstanceAs (Decidable (x ≤ y))
  | JsNumber.num _, JsNumber.nan => isFalse (fun h => h)
  | JsNumber.nan, _ => isFalse (fun h => h)

instance JsNumber.decLt : DecidableRel ((· < ·) : JsNumber → JsNumber → Prop)
  | JsNumber.num x, JsNumber.num y => inferInstanceAs (Decidable (x < y))
  | JsNumber.num _, JsNumber.nan => isFalse (fun h => h)
  | JsNumber.nan, _ => isFalse (fun h => h)

/-- `haversine` (lines 73-85) on two vehicles.  Its value on four coordinates that are
numbers is the parameter `meters` (floating-point trigonometry); a NaN coordinate enters
`dLat` or `dLon` (lines 77-78) or `lat1`, `lat2` (lines 79-80) and propagates through every
product and sum to the result. -/
def haversine (meters : Rat → Rat → Rat → Rat → Rat) (a b : LiveVehicle) : JsNumber :=
  match a.lat, a.lng, b.lat, b.lng with
  | some alat, some alng, some blat, some blng => JsNumber.num (meters alat alng blat blng)
  | _, _, _, _ => JsNumber.nan

/-- Lines 192-195: `carClusters`, with the distance function of `clusterNearby` as a
parameter; the threshold is the number 150. -/
def carClusters (haversine : LiveVehicle → LiveVehicle → JsNumber) (enableClustering : Bool)
    (cars : List LiveVehicle) : Except String (List (List LiveVehicle)) :=
  if !enableClustering then Except.ok (cars.map (fun c => [c]))
  else clusterNearby haversine (some cars) (JsNumber.num 150)

/-- A feed record whose `lat` is missing: `Number(undefined)` is NaN, which `?? 0` keeps
(line 137). -/
def noLatRecord : FeedRecord :=
  { id := some "c9", type := some "suv", lat := none, lng := some (78703 / 1000),
    driver := some "Meena", name := none, color := none, metaData := none }

/-- A feed record with both coordinates. -/
def fullRecord : FeedRecord :=
  { id := some "c8", type := some "economy", lat := some (10792 / 1000),
    lng := some (78703 / 1000), driver := some "Arun", name := none, color := none,
    metaData := none }

/-- A feed answer with the two records. -/
def noLatFeed : FeedOutcome :=
  FeedOutcome.response true 200 (Except.ok (FeedBody.array [some fullRecord, some noLatRecord]))

/-- The vehicles `fetchCars` stores for that answer: the second has a NaN latitude. -/
def nanCars : List LiveVehicle :=
  [normalize fullRecord 0, normalize noLatRecord 1]

/-! ## Car catalogue (`Cartypes.js`) -/

/-- Second entry of `DEFAULT_TYPES` (lines 17-27). -/
def premium : VehicleOption :=
  { id := "premium", name := some "RidePremium", description := "Comfortable & stylish",
    price := some "₹240", eta := some "2 min", seats := some 4, rating := 49 / 10,
    features := ["AC", "Music", "WiFi"], icon := "🚙" }

/-- Third entry of `DEFAULT_TYPES` (lines 28-38). -/
def suv : VehicleOption :=
  { id := "suv", name := some "RideSUV", description := "Spacious for groups",
    price := some "₹320", eta := some "5 min", seats := some 6, rating := 47 / 10,
    features := ["AC", "Music", "Extra Space"], icon := "🚐" }

/-- `DEFAULT_TYPES` (lines 5-39). -/
def DEFAULT_TYPES : List VehicleOption :=
  [economy, premium, suv]

/-- Props of `CarTypes` (lines 41-47).  `onCarSelect` is absent or a function that either
returns or throws. -/
structure CarTypesProps where
  onCarSelect : Option (VehicleOption → Except String Unit)
  selectedCar : Option VehicleOption
  pickupLocation : Option Location
  dropLocation : Option Location
  options : Option (List VehicleOption)

/-- A pending selection timeout (lines 94-100) with the values its callback closes over. -/
structure PendingSelect where
  car : VehicleOption
  onCarSelect : Option (VehicleOption → Except String Unit)

/-- State of one `CarTypes` instance: the state cells (lines 51-53), the pending selection
timeouts, the vehicles passed to `onCarSelect` so far and the errors it threw. -/
structure CarTypes where
  loadingId : Option String
  focusIndex : Int
  timers : List PendingSelect
  selected : List VehicleOption
  uncaught : List String

/-- State of the first render. -/
def CarTypes.init : CarTypes :=
  { loadingId := none, focusIndex := 0, timers := [], selected := [], uncaught := [] }

/-- Line 48: `options ?? DEFAULT_TYPES`. -/
def carTypes (p : CarTypesProps) : List VehicleOption :=
  p.options.getD DEFAULT_TYPES

/-- Line 49: `Boolean(pickupLocation && dropLocation)`. -/
def isSelectionEnabled (p : CarTypesProps) : Bool :=
  p.pickupLocation.isSome && p.dropLocation.isSome

/-- Truthiness of `loadingId` (line 91): null and the empty string are falsy. -/
def isLoadingId (loadingId : Option String) : Bool :=
  match loadingId with
  | none => false
  | some t => t != ""

/-- Lines 58-60: the updater of the re-clamp effect, for a list of length `n`. -/
def reclamp (n : Nat) (s : CarTypes) : CarTypes :=
  { s with focusIndex := min s.focusIndex (max 0 ((n : Int) - 1)) }

/-- `carTypes.findIndex((c) => c.id === id)`: the first position that matches, `-1` when
there is none. -/
def findIndex (l : List VehicleOption) (id : String) : Int :=
  if l.findIdx (fun c => c.id == id) < l.length then (l.findIdx (fun c => c.id == id) : Int)
  else -1

/-- Lines 63-74: the effect that follows a selection made by the parent. -/
def focusSelected (p : CarTypesProps) (s : CarTypes) : CarTypes :=
  match p.selectedCar with
  | none => s
  | some sel =>
    if findIndex (carTypes p) sel.id ≥ 0 then
      { s with focusIndex := findIndex (carTypes p) sel.id }
    else s

/-- Lines 76-86: `moveFocus(delta)` for a list of length `n`. -/
def moveFocus (n : Nat) (delta : Int) (s : CarTypes) : CarTypes :=
  { s with focusIndex := min (max (s.focusIndex + delta) 0) ((n : Int) - 1) }

/-- Lines 88-104: `handleSelect(car)` up to the timeout it starts.  `p` and `r` are the props
and the state of the render the handler was created in (they supply `isSelectionEnabled`,
`loadingId` and `onCarSelect`), `s` is the state the update is applied to. -/
def handleSelect (p : CarTypesProps) (r : CarTypes) (car : VehicleOption) (s : CarTypes) :
    CarTypes :=
  if !isSelectionEnabled p then s
  else if isLoadingId r.loadingId then s
  else
    { s with loadingId := some car.id,
             timers := s.timers ++ [{ car := car, onCarSelect := p.onCarSelect }] }

/-- Lines 94-100: the callback of a selection timeout: `onCarSelect?.(car)` inside `try`,
`setLoadingId(null)` in `finally`; an error thrown by the callback is not caught. -/
def selectTimeoutFire (t : PendingSelect) (s : CarTypes) : CarTypes :=
  match t.onCarSelect with
  | none => { s with loadingId := none }
  | some f =>
    match f t.car with
    | Except.ok _ => { s with selected := s.selected ++ [t.car], loadingId := none }
    | Except.error e =>
      { s with selected := s.selected ++ [t.car], loadingId := none,
               uncaught := s.uncaught ++ [e] }

/-- Lines 107-135: `handleKeyDown(e, idx, car)` for the key `e.key`. -/
def handleKeyDown (p : CarTypesProps) (r : CarTypes) (key : String) (car : VehicleOption)
    (s : CarTypes) : CarTypes :=
  if key = "Enter" ∨ key = " " then handleSelect p r car s
  else if key = "ArrowRight" ∨ key = "ArrowDown" then moveFocus (carTypes p).length 1 s
  else if key = "ArrowLeft" ∨ key = "ArrowUp" then moveFocus (carTypes p).length (-1) s
  else if key = "Home" then { s with focusIndex := 0 }
  else if key = "End" then { s with focusIndex := ((carTypes p).length : Int) - 1 }
  else s

/-- Line 178: `onClick` of a card. -/
def cardClick (p : CarTypesProps) (r : CarTypes) (car : VehicleOption) (s : CarTypes) :
    CarTypes :=
  if isSelectionEnabled p then handleSelect p r car s else s

/-- A mounted `CarTypes`: its current props and its state. -/
structure CarTypesView where
  props : CarTypesProps
  state : CarTypes

/-- Events a `CarTypes` instance can receive: a click or a key on the card at `idx`, the
expiry of a selection timeout, and a render with new props (`fresh` when the option list is
a new array even if its content is equal). -/
inductive CarTypesEvent where
  | click (idx : Nat)
  | keyDown (key : String) (idx : Nat)
  | selectTimeout
  | render (props : CarTypesProps) (fresh : Bool)

/-- A click or a key needs the card at `idx` (lines 156-181); an expiry needs a pending
timeout. -/
def carTypesEnabled (v : CarTypesView) : CarTypesEvent → Bool
  | CarTypesEvent.click idx => decide (idx < (carTypes v.props).length)
  | CarTypesEvent.keyDown _ idx => decide (idx < (carTypes v.props).length)
  | CarTypesEvent.selectTimeout => !v.state.timers.isEmpty
  | CarTypesEvent.render _ _ => true

/-- The two effects after a render with props `new` that follows props `old`: the re-clamp
runs when the length changed (line 60), then the selection effect runs when
`selectedCar?.id` or the list changed (line 74). -/
def runEffects (old new : CarTypesProps) (fresh : Bool) (s : CarTypes) : CarTypes :=
  let s1 := if (carTypes new).length = (carTypes old).length then s
    else reclamp (carTypes new).length s
  if new.selectedCar.map (fun c => c.id) = old.selectedCar.map (fun c => c.id)
      ∧ carTypes new = carTypes old ∧ fresh = false then s1
  else focusSelected new s1

/-- One transition of the component. -/
def carTypesStep (v : CarTypesView) : CarTypesEvent → CarTypesView
  | CarTypesEvent.click idx =>
    match (carTypes v.props)[idx]? with
    | none => v
    | some car => { v with state := cardClick v.props v.state car v.state }
  | CarTypesEvent.keyDown key idx =>
    match (carTypes v.props)[idx]? with
    | none => v
    | some car => { v with state := handleKeyDown v.props v.state key car v.state }
  | CarTypesEvent.selectTimeout =>
    match v.state.timers with
    | [] => v
    | t :: rest => { v with state := selectTimeoutFire t { v.state with timers := rest } }
  | CarTypesEvent.render props fresh =>
    { props := props, state := runEffects v.props props fresh v.state }

/-- The component after mounting with props `p`: both effects run once. -/
def carTypesMount (p : CarTypesProps) : CarTypesView :=
  { props := p, state := focusSelected p (reclamp (carTypes p).length CarTypes.init) }

/-- States reachable from a mount through events the render offers. -/
inductive CarTypesReachable : CarTypesView → Prop where
  | mount (p : CarTypesProps) : CarTypesReachable (carTypesMount p)
  | step (e : CarTypesEvent) (v : CarTypesView) :
      CarTypesReachable v → carTypesEnabled v e = true → CarTypesReachable (carTypesStep v e)

/-- Bounds of the focus index for a list of length `n`. -/
def focusInRange (n : Nat) (i : Int) : Prop :=
  0 ≤ i ∧ i ≤ max 0 ((n : Int) - 1)

/-- Props with both endpoints set and the default catalogue. -/
def enabledCarProps : CarTypesProps :=
  { onCarSelect := some (fun _ => Except.ok ()), selectedCar := none,
    pickupLocation := some parkSt, dropLocation := some mall, options := none }

/-- Props with no pickup. -/
def disabledCarProps : CarTypesProps :=
  { onCarSelect := some (fun _ => Except.ok ()), selectedCar := none,
    pickupLocation := none, dropLocation := some mall, options := none }

/-- A vehicle option whose id is the empty string. -/
def unnamedCar : VehicleOption :=
  { economy with id := "" }

/-- Props with both endpoints set and an externally supplied list. -/
def externalCarProps : CarTypesProps :=
  { enabledCarProps with options := some [unnamedCar, premium] }

/-- Props with both endpoints set and an empty list of options. -/
def emptyCarProps : CarTypesProps :=
  { enabledCarProps with options := some [] }

/-! ## Theorems: readiness guard and the booking sequence -/

/-- C1: when pickup, drop or car is null, `openConfirm` and `doBook` return the state they
were given: flow, booking and errorMsg are unchanged, no call is suspended, no identifier is
generated and `onBookRide` is not invoked; the same holds for the clicks that reach them. -/
theorem notReady_confirm_noop (p : Props) (s : BookButton)
    (h : p.pickupLocation = none ∨ p.dropLocation = none ∨ p.selectedCar = none) :
    openConfirm p s = s ∧ doBook p s = s
      ∧ (doBook p s).pending = s.pending ∧ (doBook p s).ids = s.ids
      ∧ (doBook p s).notified = s.notified
      ∧ step p s Event.clickPrimary = s ∧ step p s Event.confirmPay = s
      ∧ step p s Event.retry = s := by
  have hr : isReady p = false := by
    rcases h with h | h | h <;> simp [isReady, h]
  simp [openConfirm, doBook, step, handle, primaryClick, autoCloseEffect, hr]

theorem notReady_confirm_noop_witness :
    (emptyProps.pickupLocation = none ∨ emptyProps.dropLocation = none
        ∨ emptyProps.selectedCar = none)
      ∧ openConfirm emptyProps BookButton.init = BookButton.init
      ∧ doBook emptyProps BookButton.init = BookButton.init :=
  ⟨Or.inl rfl,
    (notReady_confirm_noop emptyProps BookButton.init (Or.inl rfl)).1,
    (notReady_confirm_noop emptyProps BookButton.init (Or.inl rfl)).2.1⟩

/-- C2: with pickup, drop and car all non-null, from the initial state the click that opens
the confirmation, the confirm click and the completion of the awaited delay are each offered
by the render and take flow through idle, confirm, loading, success, one value per
transition. -/
theorem flow_sequence_idle_confirm_loading_success (p : Props) (c : Clock)
    (hp : p.pickupLocation.isSome = true) (hd : p.dropLocation.isSome = true)
    (hc : p.selectedCar.isSome = true) :
    let s0 := BookButton.init
    let s1 := step p s0 Event.clickPrimary
    let s2 := step p s1 Event.confirmPay
    let s3 := step p s2 (Event.delayElapsed c (Except.ok ()))
    [s0.flow, s1.flow, s2.flow, s3.flow]
        = [Flow.idle, Flow.confirm, Flow.loading, Flow.success]
      ∧ enabled p s0 Event.clickPrimary = true
      ∧ enabled p s1 Event.confirmPay = true
      ∧ enabled p s2 (Event.delayElapsed c (Except.ok ())) = true
      ∧ s3.pending = [] := by
  have hr : isReady p = true := by simp [isReady, hp, hd, hc]
  cases hcb : p.onBookRide with
  | none =>
    simp [step, handle, primaryClick, openConfirm, doBook, doBookResume, notifyBooked,
      autoCloseEffect, enabled, BookButton.init, hr, hp, hd, hcb]
  | some f =>
    cases hf : f (bookingPayload c p) <;>
    simp [step, handle, primaryClick, openConfirm, doBook, doBookResume, notifyBooked,
      autoCloseEffect, enabled, BookButton.init, hr, hp, hd, hcb, hf]

theorem flow_sequence_idle_confirm_loading_success_witness :
    [BookButton.init.flow,
      (step readyProps BookButton.init Event.clickPrimary).flow,
      (step readyProps (step readyProps BookButton.init Event.clickPrimary)
        Event.confirmPay).flow,
      bookedButton.flow]
      = [Flow.idle, Flow.confirm, Flow.loading, Flow.success] :=
  (flow_sequence_idle_confirm_loading_success readyProps clockA rfl rfl rfl).1

/-- C4: `handlePickupSelect l` yields the selection `(l, drop, null)` and
`handleDropSelect l` yields `(pickup, l, null)`, for every state and every `l`, null
included; the booking cell is not touched. -/
theorem select_endpoint_clears_car (s : Shell) (l : Option Location) :
    (handlePickupSelect l s).pickupLocation = l
      ∧ (handlePickupSelect l s).dropLocation = s.dropLocation
      ∧ (handlePickupSelect l s).selectedCar = none
      ∧ (handleDropSelect l s).pickupLocation = s.pickupLocation
      ∧ (handleDropSelect l s).dropLocation = l
      ∧ (handleDropSelect l s).selectedCar = none
      ∧ (handlePickupSelect l s).booking = s.booking
      ∧ (handleDropSelect l s).booking = s.booking
      ∧ shellStep s (ShellEvent.pickupSelect l) = handlePickupSelect l s
      ∧ shellStep s (ShellEvent.dropSelect l) = handleDropSelect l s := by
  simp [handlePickupSelect, handleDropSelect, shellStep, shellHandle, toastEffect]

/-- The guard of `handleBookRide` as far as it holds: the `handleBookRide` of a render whose
status is loading returns the state it is applied to, suspends nothing and generates no
identifier; so from a ready idle state a second call, made through the render that follows
the first, changes nothing, and when the delay has elapsed exactly one identifier has been
generated and no call is left. -/
theorem handleBookRide_loading_noop (s cur s0 : Shell) (extra x y : Option BookingPayload)
    (c : Clock) (hs : s.booking.status = Flow.loading)
    (hp : s0.pickupLocation.isSome = true) (hd : s0.dropLocation.isSome = true)
    (hc : s0.selectedCar.isSome = true) (hi : s0.booking.status = Flow.idle)
    (h0 : s0.pending = []) :
    handleBookRide s extra cur = cur
      ∧ shellStep s (ShellEvent.bookRide s extra) = s
      ∧ (let s1 := shellStep s0 (ShellEvent.bookRide s0 x)
         let s2 := shellStep s1 (ShellEvent.bookRide s1 y)
         let s3 := shellStep s2 (ShellEvent.delayElapsed c (Except.ok ()))
         s1.booking.status = Flow.loading ∧ s2 = s1 ∧ s2.ids = s0.ids
           ∧ s3.ids = s0.ids ++ [makeBookingId c.now c.rand] ∧ s3.pending = []
           ∧ shellEnabled s3 (ShellEvent.delayElapsed c (Except.ok ())) = false) := by
  have hs' : canBook s = false := by simp [canBook, hs]
  have h0' : canBook s0 = true := by simp [canBook, hp, hd, hc, hi]
  refine ⟨by simp [handleBookRide, hs'], ?_, ?_⟩
  · simp [shellStep, shellHandle, handleBookRide, hs', toastEffect]
  · have e1 : shellStep s0 (ShellEvent.bookRide s0 x)
        = { s0 with booking := { status := Flow.loading, bookingId := none, message := none },
                    pending := [{ pickupLocation := s0.pickupLocation,
                                  dropLocation := s0.dropLocation,
                                  selectedCar := s0.selectedCar, extra := x }] } := by
      simp [shellStep, shellHandle, handleBookRide, toastEffect, toastStatus, h0', hi, h0]
    simp only [e1]
    have hl : canBook { s0 with
        booking := { status := Flow.loading, bookingId := none, message := none },
        pending := [{ pickupLocation := s0.pickupLocation,
                      dropLocation := s0.dropLocation,
                      selectedCar := s0.selectedCar, extra := x }] } = false := by
      simp [canBook]
    simp [shellStep, shellHandle, handleBookRide, handleBookRideResume, toastEffect,
      toastStatus, shellEnabled, hl]

theorem handleBookRide_loading_noop_witness :
    handleBookRide (shellStep readyShell (ShellEvent.bookRide readyShell none)) none
        (shellStep readyShell (ShellEvent.bookRide readyShell none))
      = shellStep readyShell (ShellEvent.bookRide readyShell none) :=
  (handleBookRide_loading_noop (shellStep readyShell (ShellEvent.bookRide readyShell none))
    (shellStep readyShell (ShellEvent.bookRide readyShell none)) readyShell none none none
    clockB rfl rfl rfl rfl rfl rfl).1

/-- The guard `canBook` is the one of the render a handler is taken from: the
`handleBookRide` of a ready render whose status was not loading, applied after the status
has become loading, suspends a further call. -/
theorem handleBookRide_of_earlier_render (r cur : Shell) (extra : Option BookingPayload)
    (hr : canBook r = true) :
    (handleBookRide r extra cur).pending.length = cur.pending.length + 1 := by
  simp [handleBookRide, hr]

/-- C6, as stated, fails: in the `success` state of the worked example, with a ready
selection, `doBook` changes flow to loading and suspends a second booking, whose completion
generates a second identifier. -/
theorem doBook_in_success_not_noop :
    isReady readyProps = true ∧ bookedButton.flow = Flow.success
      ∧ (doBook readyProps bookedButton).flow = Flow.loading
      ∧ (doBook readyProps bookedButton).flow ≠ bookedButton.flow
      ∧ bookedButton.ids.length = 1
      ∧ (step readyProps (step readyProps bookedButton Event.confirmPay)
          (Event.delayElapsed clockB (Except.ok ()))).ids.length = 2 := by
  decide

/-- C6, amended: while flow is loading or success the render offers neither of the two
buttons that call `doBook` (confirm, retry) and disables the primary button, whose click
handler returns the state unchanged there; no event the render offers in these states
suspends a further booking.  `doBook` itself checks readiness only. -/
theorem doBook_not_offered_while_loading_or_success (p : Props) (s : BookButton)
    (h : s.flow = Flow.loading ∨ s.flow = Flow.success) :
    enabled p s Event.confirmPay = false ∧ enabled p s Event.retry = false
      ∧ enabled p s Event.clickPrimary = false ∧ primaryClick p s = s
      ∧ (∀ e, enabled p s e = true → (step p s e).pending.length ≤ s.pending.length) := by
  refine ⟨?_, ?_, ?_, ?_, ?_⟩
  · rcases h with h | h <;> simp [enabled, h]
  · rcases h with h | h <;> simp [enabled, h]
  · rcases h with h | h <;> simp [enabled, h]
  · rcases h with h | h <;> simp [primaryClick, h]
  · intro e he
    have hpend : ∀ t : BookButton, (autoCloseEffect s.flow t).pending = t.pending := by
      intro t
      unfold autoCloseEffect
      split_ifs <;> rfl
    cases e with
    | clickPrimary => rcases h with h | h <;> simp [enabled, h] at he
    | cancelConfirm => rcases h with h | h <;> simp [enabled, h] at he
    | confirmPay => rcases h with h | h <;> simp [enabled, h] at he
    | retry => rcases h with h | h <;> simp [enabled, h] at he
    | dismissError => rcases h with h | h <;> simp [enabled, h] at he
    | closeSuccess => simp [step, hpend, handle, resetAll]
    | copyBookingId => simp [step, hpend, handle]
    | autoCloseTimeout => simp [step, hpend, handle, autoCloseFire]
    | delayElapsed c a =>
      simp only [step, hpend, handle]
      cases hq : s.pending with
      | nil => simp [hq]
      | cons q rest =>
        cases a with
        | error e => simp [doBookResume]
        | ok u =>
          simp only [doBookResume, notifyBooked]
          cases p1 : q.onBookRide with
          | none => simp
          | some f =>
            simp only []
            cases f (bookingPayload c q) <;> simp

theorem doBook_not_offered_while_loading_or_success_witness :
    (bookedButton.flow = Flow.loading ∨ bookedButton.flow = Flow.success)
      ∧ enabled readyProps bookedButton Event.confirmPay = false
      ∧ enabled readyProps bookedButton Event.retry = false :=
  ⟨Or.inr (by decide),
    (doBook_not_offered_while_loading_or_success readyProps bookedButton
      (Or.inr (by decide))).1,
    (doBook_not_offered_while_loading_or_success readyProps bookedButton
      (Or.inr (by decide))).2.1⟩

/-- C8: the record stored when a confirmed booking completes carries the pickup, drop and
car of the render the confirmation was made from, whatever the props are by then; its
message is `Driver arriving in ` followed by the car's eta when the car has one, so it
contains that eta, and `Driver arriving in a few mins` when the car has none. -/
theorem booking_record_fields (p p' : Props) (c : Clock)
    (hp : p.pickupLocation.isSome = true) (hd : p.dropLocation.isSome = true)
    (hc : p.selectedCar.isSome = true) :
    ∃ b, (step p' (step p (step p BookButton.init Event.clickPrimary) Event.confirmPay)
            (Event.delayElapsed c (Except.ok ()))).booking = some b
      ∧ b.pickup = p.pickupLocation ∧ b.drop = p.dropLocation ∧ b.car = p.selectedCar
      ∧ (∀ car eta, p.selectedCar = some car → car.eta = some eta →
          b.message = "Driver arriving in " ++ eta ∧ eta.data <:+: b.message.data)
      ∧ (∀ car, p.selectedCar = some car → car.eta = none →
          b.message = "Driver arriving in a few mins") := by
  have hr : isReady p = true := by simp [isReady, hp, hd, hc]
  refine ⟨bookingPayload c p, ?_, rfl, rfl, rfl, ?_, ?_⟩
  · cases hcb : p.onBookRide with
    | none =>
      simp [step, handle, primaryClick, openConfirm, doBook, doBookResume, notifyBooked,
        autoCloseEffect, BookButton.init, hr, hcb]
    | some f =>
      cases hf : f (bookingPayload c p) <;>
      simp [step, handle, primaryClick, openConfirm, doBook, doBookResume, notifyBooked,
        autoCloseEffect, BookButton.init, hr, hcb, hf]
  · intro car eta h1 h2
    have hm : (bookingPayload c p).message = "Driver arriving in " ++ eta := by
      simp [bookingPayload, bookingMessage, h1, h2]
    refine ⟨hm, ?_⟩
    rw [hm, String.data_append]
    exact List.suffix_append _ _ |>.isInfix
  · intro car h1 h2
    simp [bookingPayload, bookingMessage, h1, h2]

theorem booking_record_fields_witness :
    ∃ b, bookedButton.booking = some b
      ∧ b.pickup = some parkSt ∧ b.drop = some mall ∧ b.car = some economy
      ∧ b.message = "Driver arriving in 3 min"
      ∧ "3 min".data <:+: b.message.data := by
  obtain ⟨b, h1, h2, h3, h4, h5, _⟩ :=
    booking_record_fields readyProps readyProps clockA rfl rfl rfl
  exact ⟨b, h1, h2, h3, h4, (h5 economy "3 min" rfl rfl).1, (h5 economy "3 min" rfl rfl).2⟩

/-- C9: when the `onBookRide` callback throws on the record `doBook` passes to it, the
booking still ends with flow = success, booking = the record built, errorMsg = null, and
flow, booking, errorMsg, timer, identifiers and notifications are those reached with a
callback that returns; only the console differs. -/
theorem callback_throw_keeps_success (pk dr : Option Location) (car : Option VehicleOption)
    (f g : BookingPayload → Except String Unit) (c : Clock) (s : BookButton) (e : String)
    (hp : pk.isSome = true) (hd : dr.isSome = true) (hc : car.isSome = true)
    (hs : s.pending = [])
    (hf : f (bookingPayload c ⟨pk, dr, car, some f⟩) = Except.error e)
    (hg : g (bookingPayload c ⟨pk, dr, car, some g⟩) = Except.ok ()) :
    let tf := step ⟨pk, dr, car, some f⟩ (step ⟨pk, dr, car, some f⟩ s Event.confirmPay)
      (Event.delayElapsed c (Except.ok ()))
    let tg := step ⟨pk, dr, car, some g⟩ (step ⟨pk, dr, car, some g⟩ s Event.confirmPay)
      (Event.delayElapsed c (Except.ok ()))
    tf.flow = Flow.success ∧ tf.booking = some (bookingPayload c ⟨pk, dr, car, some f⟩)
      ∧ tf.errorMsg = none
      ∧ tf.flow = tg.flow ∧ tf.booking = tg.booking ∧ tf.errorMsg = tg.errorMsg
      ∧ tf.autoClose = tg.autoClose ∧ tf.ids = tg.ids ∧ tf.notified = tg.notified
      ∧ tf.pending = tg.pending
      ∧ tf.console = tg.console ++ ["onBookRide threw: " ++ e] := by
  have hrf : isReady ⟨pk, dr, car, some f⟩ = true := by simp [isReady, hp, hd, hc]
  have hrg : isReady ⟨pk, dr, car, some g⟩ = true := by simp [isReady, hp, hd, hc]
  have hb : bookingPayload c ⟨pk, dr, car, some g⟩ = bookingPayload c ⟨pk, dr, car, some f⟩ :=
    rfl
  rw [hb] at hg
  cases hfl : s.flow <;>
  simp [step, handle, doBook, doBookResume, notifyBooked, autoCloseEffect, hrf, hrg, hs, hf,
    hg, hb, hfl]

theorem callback_throw_keeps_success_witness :
    (step ⟨some parkSt, some mall, some economy, some (fun _ => Except.error "boom")⟩
      (step ⟨some parkSt, some mall, some economy, some (fun _ => Except.error "boom")⟩
        BookButton.init Event.confirmPay)
      (Event.delayElapsed clockA (Except.ok ()))).flow = Flow.success :=
  (callback_throw_keeps_success (some parkSt) (some mall) (some economy)
    (fun _ => Except.error "boom") (fun _ => Except.ok ()) clockA BookButton.init "boom"
    rfl rfl rfl rfl rfl rfl).1

/-! ## Theorems: the identifier is held exactly in `success` -/

theorem flowInvariant_init : flowInvariant BookButton.init := by
  simp [flowInvariant, BookButton.init]

theorem flowInvariant_step (p : Props) (s : BookButton) (e : Event)
    (hs : flowInvariant s) (he : enabled p s e = true) : flowInvariant (step p s e) := by
  obtain ⟨flow, booking, errorMsg, autoClose, pending, ids, notified, console⟩ := s
  obtain ⟨h1, h2, h3⟩ := hs
  simp only at h1 h2 h3
  cases e with
  | clickPrimary =>
    cases flow <;> cases hr : isReady p <;>
      simp_all [flowInvariant, step, handle, primaryClick, openConfirm, autoCloseEffect,
        enabled]
  | cancelConfirm =>
    cases flow <;>
      simp_all [flowInvariant, step, handle, cancelConfirm, autoCloseEffect, enabled]
  | confirmPay =>
    cases flow <;> cases hr : isReady p <;>
      simp_all [flowInvariant, step, handle, doBook, autoCloseEffect, enabled]
  | retry =>
    cases flow <;> cases hr : isReady p <;>
      simp_all [flowInvariant, step, handle, doBook, autoCloseEffect, enabled]
  | dismissError =>
    cases flow <;>
      simp_all [flowInvariant, step, handle, resetAll, autoCloseEffect, enabled]
  | closeSuccess =>
    cases flow <;>
      simp_all [flowInvariant, step, handle, resetAll, autoCloseEffect, enabled]
  | copyBookingId =>
    cases flow <;>
      simp_all [flowInvariant, step, handle, autoCloseEffect, enabled]
  | autoCloseTimeout =>
    cases flow <;>
      simp_all [flowInvariant, step, handle, autoCloseFire, autoCloseEffect, enabled]
  | delayElapsed c a =>
    cases pending with
    | nil => simp [enabled] at he
    | cons q rest =>
      have hl : flow = Flow.loading ∧ rest = [] := by
        rcases h3 with h3 | h3
        · simp at h3
        · exact ⟨h3.1, by simpa using h3.2⟩
      obtain ⟨hfl, hrest⟩ := hl
      subst hfl hrest
      have hb : booking = none := by
        cases booking with
        | none => rfl
        | some b => simp at h1
      subst hb
      have hac : autoClose = false := by
        cases autoClose with
        | false => rfl
        | true => simp at h2
      subst hac
      cases a with
      | error err =>
        simp [flowInvariant, step, handle, doBookResume, autoCloseEffect]
      | ok u =>
        cases hcb : q.onBookRide with
        | none =>
          simp [flowInvariant, step, handle, doBookResume, notifyBooked, autoCloseEffect, hcb]
        | some f =>
          cases hf : f (bookingPayload c q) <;>
            simp [flowInvariant, step, handle, doBookResume, notifyBooked, autoCloseEffect,
              hcb, hf]

theorem flowInvariant_reachable (s : BookButton) (h : Reachable s) : flowInvariant s := by
  induction h with
  | init => exact flowInvariant_init
  | step p e s _ he ih => exact flowInvariant_step p s e ih he

theorem shellInvariant_step (s : Shell) (e : ShellEvent) (hs : shellInvariant s) :
    shellInvariant (shellStep s e) := by
  have heff : ∀ (old : Flow) (t : Shell), (toastEffect old t).booking = t.booking := by
    intro old t
    unfold toastEffect
    split_ifs <;> rfl
  unfold shellInvariant at hs ⊢
  simp only [shellStep, heff]
  cases e with
  | pickupSelect l => simpa [shellHandle, handlePickupSelect] using hs
  | dropSelect l => simpa [shellHandle, handleDropSelect] using hs
  | carSelect c => simpa [shellHandle, handleCarSelect] using hs
  | bookRide r extra =>
    cases hr : canBook r <;> simp [shellHandle, handleBookRide, hr, hs]
  | delayElapsed c a =>
    cases hq : s.pending with
    | nil => simpa [shellHandle, hq] using hs
    | cons q rest =>
      cases a <;> simp [shellHandle, hq, handleBookRideResume]
  | logout => simp [shellHandle, handleLogout, ShellBooking.idle]
  | toastTimeout => simp [shellHandle, toastFire, ShellBooking.idle]
  | toggleSidebar => simpa [shellHandle] using hs
  | closeSidebar => simpa [shellHandle] using hs

theorem shellInvariant_reachable (s : Shell) (h : ShellReachable s) : shellInvariant s := by
  induction h with
  | init => simp [shellInvariant, Shell.init, ShellBooking.idle]
  | step e s _ _ ih => exact shellInvariant_step s e ih

/-- C3: a booking identifier is held exactly in `success`.  In every state of the booking
flow reachable from the first render through events the render offers, under any props,
booking is non-null exactly when flow = success; in every reachable state of the shell,
booking.bookingId is non-null exactly when booking.status = success. -/
theorem bookingId_held_iff_success :
    (∀ s, Reachable s → (s.booking.isSome = true ↔ s.flow = Flow.success))
      ∧ (∀ s, ShellReachable s →
          (s.booking.bookingId.isSome = true ↔ s.booking.status = Flow.success)) :=
  ⟨fun s h => (flowInvariant_reachable s h).1, fun s h => shellInvariant_reachable s h⟩

theorem bookingId_held_iff_success_witness :
    (bookedButton.booking.isSome = true ↔ bookedButton.flow = Flow.success)
      ∧ ((shellStep (shellStep readyShell (ShellEvent.bookRide readyShell none))
            (ShellEvent.delayElapsed clockB (Except.ok ()))).booking.bookingId.isSome = true
          ↔ (shellStep (shellStep readyShell (ShellEvent.bookRide readyShell none))
            (ShellEvent.delayElapsed clockB (Except.ok ()))).booking.status = Flow.success) :=
  ⟨bookingId_held_iff_success.1 bookedButton
      (Reachable.step _ _ _
        (Reachable.step _ _ _
          (Reachable.step _ _ _ Reachable.init (by decide)) (by decide)) (by decide)),
    bookingId_held_iff_success.2 _
      (ShellReachable.step _ _
        (ShellReachable.step _ _
          (ShellReachable.step (ShellEvent.carSelect (some economy)) _
            (ShellReachable.step (ShellEvent.dropSelect (some mall)) _
              (ShellReachable.step (ShellEvent.pickupSelect (some parkSt)) _
                ShellReachable.init rfl) rfl) rfl) rfl) (by decide))⟩

/-! ## Theorems: identifier format -/

theorem digits36_low_six (t : Nat) (ht : 36 ^ 5 ≤ t) :
    Nat.digits 36 t
      = [t % 36, t / 36 ^ 1 % 36, t / 36 ^ 2 % 36, t / 36 ^ 3 % 36, t / 36 ^ 4 % 36,
          t / 36 ^ 5 % 36] ++ Nat.digits 36 (t / 36 ^ 6) := by
  have hpos : ∀ k, k ≤ 5 → 0 < t / 36 ^ k := by
    intro k hk
    apply Nat.div_pos _ (by positivity)
    exact le_trans (Nat.pow_le_pow_right (by norm_num) hk) ht
  have hstep : ∀ k, k ≤ 5 →
      Nat.digits 36 (t / 36 ^ k) = t / 36 ^ k % 36 :: Nat.digits 36 (t / 36 ^ (k + 1)) := by
    intro k hk
    rw [Nat.digits_def' (by norm_num) (hpos k hk), Nat.div_div_eq_div_mul, ← pow_succ]
  have h0 := hstep 0 (by norm_num)
  rw [pow_zero, Nat.div_one] at h0
  rw [h0, hstep 1 (by norm_num), hstep 2 (by norm_num), hstep 3 (by norm_num),
    hstep 4 (by norm_num), hstep 5 (by norm_num)]
  rfl

theorem sliceLast_toStringRadix36 (t : Nat) (ht : 36 ^ 5 ≤ t) :
    toUpperCase (sliceLast 6 (toStringRadix 36 t)) = lastSixBase36Upper t := by
  have hne : t ≠ 0 := by
    intro h
    rw [h] at ht
    norm_num at ht
  unfold toStringRadix sliceLast
  rw [if_neg hne, digits36_low_six t ht]
  simp only [List.reverse_append, List.map_append, List.length_append, List.length_map,
    List.length_reverse, List.length_cons, List.length_nil]
  rw [show (Nat.digits 36 (t / 36 ^ 6)).length + (0 + 1 + 1 + 1 + 1 + 1 + 1) - 6
      = (List.map digitChar36 (Nat.digits 36 (t / 36 ^ 6)).reverse).length by simp]
  rw [List.drop_left]
  simp [toUpperCase, lastSixBase36Upper]

theorem digitChar36_upper_class : ∀ d, d < 36 →
    ((digitChar36 d).toUpper.isUpper || (digitChar36 d).toUpper.isDigit) = true := by
  decide

theorem digitChar36_digit : ∀ d, d < 10 → (digitChar36 d).isDigit = true := by
  decide

theorem toStringRadix10_three (n : Nat) (h1 : 100 ≤ n) (h2 : n ≤ 999) :
    toStringRadix 10 n = [digitChar36 (n / 100), digitChar36 (n / 10 % 10), digitChar36 (n % 10)] := by
  have hne : n ≠ 0 := by omega
  unfold toStringRadix
  rw [if_neg hne, Nat.digits_def' (by norm_num) (by omega),
    Nat.digits_def' (by norm_num) (by omega), Nat.digits_def' (by norm_num) (by omega)]
  have h3 : n / 10 / 10 / 10 = 0 := by omega
  have h4 : n / 10 / 10 % 10 = n / 100 := by omega
  rw [h3, h4]
  simp

theorem randomSuffix_bounds (r : Rat) (h0 : 0 ≤ r) (h1 : r < 1) :
    100 ≤ randomSuffix r ∧ randomSuffix r ≤ 999 := by
  unfold randomSuffix
  constructor
  · apply Int.le_floor.mpr
    push_cast
    linarith
  · have : Int.floor (r * 900 + 100) < 1000 := by
      apply Int.floor_lt.mpr
      push_cast
      linarith
    omega


theorem matchesPattern_of_parts (a b : List Char) (ha : a.length = 6) (hb : b.length = 3)
    (ha' : ∀ ch ∈ a, (ch.isUpper || ch.isDigit) = true)
    (hb' : ∀ ch ∈ b, ch.isDigit = true) :
    matchesBookingIdPattern (String.mk (['R', 'D', '-'] ++ a ++ b)) = true := by
  have h1 : List.take 6 (a ++ b) = a := by
    rw [← ha]
    exact List.take_left a b
  have h2 : List.drop 6 (a ++ b) = b := by
    rw [← ha]
    exact List.drop_left a b
  simp only [matchesBookingIdPattern, List.cons_append, List.nil_append]
  rw [h1, h2]
  simp only [List.length_append, ha, hb, Bool.and_eq_true, beq_iff_eq, List.all_eq_true]
  exact ⟨⟨trivial, ha'⟩, hb'⟩

/-- C7: for a clock value `t ≥ 36^5` and a random value `0 ≤ r < 1`, `genBookingId` returns
`RD-`, then the six lowest base-36 digits of `t` in upper case, then the decimal digits of
`floor(900 r + 100)`, which lies in `[100, 999]` and has three digits; the identifier has
length 12 and matches `RD-[A-Z0-9]{6}\d{3}`.  `makeBookingId` returns the same string. -/
theorem genBookingId_format (t : Nat) (r : Rat) (ht : 36 ^ 5 ≤ t) (h0 : 0 ≤ r) (h1 : r < 1) :
    genBookingId t r
        = String.mk (['R', 'D', '-'] ++ lastSixBase36Upper t
            ++ numberToString (Int.floor (900 * r + 100)))
      ∧ 100 ≤ Int.floor (900 * r + 100) ∧ Int.floor (900 * r + 100) ≤ 999
      ∧ numberToString (Int.floor (900 * r + 100))
          = [digitChar36 ((Int.floor (900 * r + 100)).toNat / 100),
             digitChar36 ((Int.floor (900 * r + 100)).toNat / 10 % 10),
             digitChar36 ((Int.floor (900 * r + 100)).toNat % 10)]
      ∧ (genBookingId t r).length = 12
      ∧ matchesBookingIdPattern (genBookingId t r) = true
      ∧ makeBookingId t r = genBookingId t r := by
  have hfl : randomSuffix r = Int.floor (900 * r + 100) := by
    unfold randomSuffix
    rw [mul_comm]
  obtain ⟨hb1, hb2⟩ := randomSuffix_bounds r h0 h1
  rw [hfl] at hb1 hb2
  have hnum : numberToString (Int.floor (900 * r + 100))
      = [digitChar36 ((Int.floor (900 * r + 100)).toNat / 100),
         digitChar36 ((Int.floor (900 * r + 100)).toNat / 10 % 10),
         digitChar36 ((Int.floor (900 * r + 100)).toNat % 10)] := by
    unfold numberToString
    rw [if_neg (by omega)]
    exact toStringRadix10_three _ (by omega) (by omega)
  have hid : genBookingId t r
      = String.mk (['R', 'D', '-'] ++ lastSixBase36Upper t
          ++ numberToString (Int.floor (900 * r + 100))) := by
    unfold genBookingId
    rw [sliceLast_toStringRadix36 t ht, hfl]
  refine ⟨hid, hb1, hb2, hnum, ?_, ?_, rfl⟩
  · rw [hid, hnum]
    simp [String.length, lastSixBase36Upper]
  · rw [hid]
    apply matchesPattern_of_parts
    · simp [lastSixBase36Upper]
    · rw [hnum]
      rfl
    · intro ch hch
      simp only [lastSixBase36Upper, List.mem_map] at hch
      obtain ⟨i, _, rfl⟩ := hch
      exact digitChar36_upper_class _ (Nat.mod_lt _ (by norm_num))
    · intro ch hch
      rw [hnum] at hch
      simp only [List.mem_cons, List.mem_singleton, List.not_mem_nil, or_false] at hch
      rcases hch with rfl | rfl | rfl
      · exact digitChar36_digit _ (by omega)
      · exact digitChar36_digit _ (by omega)
      · exact digitChar36_digit _ (by omega)

theorem genBookingId_format_witness :
    genBookingId 1762290000000 (1 / 2)
      = String.mk (['R', 'D', '-'] ++ lastSixBase36Upper 1762290000000
          ++ numberToString (Int.floor (900 * (1 / 2 : Rat) + 100))) :=
  (genBookingId_format 1762290000000 (1 / 2) (by norm_num) (by norm_num) (by norm_num)).1

theorem genBookingId_parts (t : Nat) (r : Rat) (ht : 36 ^ 5 ≤ t) (h0 : 0 ≤ r) (h1 : r < 1) :
    genBookingId t r
      = String.mk (['R', 'D', '-'] ++ lastSixBase36Upper t
          ++ [digitChar36 ((randomSuffix r).toNat / 100),
              digitChar36 ((randomSuffix r).toNat / 10 % 10),
              digitChar36 ((randomSuffix r).toNat % 10)]) := by
  obtain ⟨hb1, hb2⟩ := randomSuffix_bounds r h0 h1
  unfold genBookingId numberToString
  rw [sliceLast_toStringRadix36 t ht, if_neg (by omega),
    toStringRadix10_three _ (by omega) (by omega)]

theorem randomSuffix_half : randomSuffix (1 / 2) = 550 := by
  norm_num [randomSuffix]

theorem randomSuffix_quarter : randomSuffix (1 / 4) = 325 := by
  norm_num [randomSuffix]

theorem genBookingId_clockA : genBookingId clockA.now clockA.rand = "RD-L1YQO0550" := by
  rw [genBookingId_parts _ _ (by norm_num [clockA]) (by norm_num [clockA])
    (by norm_num [clockA])]
  simp only [clockA, randomSuffix_half]
  decide

theorem makeBookingId_clockB : makeBookingId clockB.now clockB.rand = "RD-L1YRIK325" := by
  show genBookingId clockB.now clockB.rand = "RD-L1YRIK325"
  rw [genBookingId_parts _ _ (by norm_num [clockB]) (by norm_num [clockB])
    (by norm_num [clockB])]
  simp only [clockB, randomSuffix_quarter]
  decide

theorem randomSuffix_eighth : randomSuffix (1 / 8) = 212 := by
  norm_num [randomSuffix]

theorem makeBookingId_clockD : makeBookingId clockD.now clockD.rand = "RD-L1YRZ8212" := by
  show genBookingId clockD.now clockD.rand = "RD-L1YRZ8212"
  rw [genBookingId_parts _ _ (by norm_num [clockD]) (by norm_num [clockD])
    (by norm_num [clockD])]
  simp only [clockD, randomSuffix_eighth]
  decide

/-- C5, divergence: the shell renders two `BookButton` instances with the same props.  From
the ready idle state of the worked example both are confirmed, the second 600 ms after the
first; each calls the `handleBookRide` it received when it was confirmed, the one of the idle
render.  The first call sets the status to loading; the second, made 600 ms later while the
first is still suspended, passes the guard `canBook` of the idle render, suspends a second
booking, and two identifiers are generated where the claim says one. -/
theorem stale_handleBookRide_generates_two_identifiers :
    ShellReachable readyShell
      ∧ canBook readyShell = true ∧ readyShell.booking.status = Flow.idle
      ∧ readyShell.pending = []
      ∧ enabled (propsOf readyShell) BookButton.init Event.clickPrimary = true
      ∧ enabled (propsOf readyShell)
          (step (propsOf readyShell) BookButton.init Event.clickPrimary)
          Event.confirmPay = true
      ∧ enabled (propsOf readyShell) (confirmedButton readyShell)
          (Event.delayElapsed clockA (Except.ok ())) = true
      ∧ enabled (propsOf readyShell) (confirmedButton readyShell)
          (Event.delayElapsed clockC (Except.ok ())) = true
      ∧ twoButtonsFirstCall readyShell clockA
          = shellStep readyShell
              (ShellEvent.bookRide readyShell (some (bookingPayload clockA readyProps)))
      ∧ twoButtonsSecondCall readyShell clockA clockC
          = shellStep (twoButtonsFirstCall readyShell clockA)
              (ShellEvent.bookRide readyShell (some (bookingPayload clockC readyProps)))
      ∧ (twoButtonsFirstCall readyShell clockA).booking.status = Flow.loading
      ∧ (twoButtonsFirstCall readyShell clockA).pending.length = 1
      ∧ (twoButtonsFirstCall readyShell clockA).ids = []
      ∧ (twoButtonsSecondCall readyShell clockA clockC).booking.status = Flow.loading
      ∧ (twoButtonsSecondCall readyShell clockA clockC).pending.length = 2
      ∧ shellEnabled (twoButtonsSecondCall readyShell clockA clockC)
          (ShellEvent.delayElapsed clockB (Except.ok ())) = true
      ∧ shellEnabled
          (shellStep (twoButtonsSecondCall readyShell clockA clockC)
            (ShellEvent.delayElapsed clockB (Except.ok ())))
          (ShellEvent.delayElapsed clockD (Except.ok ())) = true
      ∧ (twoButtonsDone readyShell clockA clockC clockB clockD).ids
          = ["RD-L1YRIK325", "RD-L1YRZ8212"]
      ∧ (twoButtonsDone readyShell clockA clockC clockB clockD).ids.length = 2
      ∧ (twoButtonsDone readyShell clockA clockC clockB clockD).pending = [] := by
  have hr : ShellReachable readyShell :=
    ShellReachable.step (ShellEvent.carSelect (some economy)) _
      (ShellReachable.step (ShellEvent.dropSelect (some mall)) _
        (ShellReachable.step (ShellEvent.pickupSelect (some parkSt)) _
          ShellReachable.init rfl) rfl) rfl
  have hids : (twoButtonsDone readyShell clockA clockC clockB clockD).ids
      = [makeBookingId clockB.now clockB.rand, makeBookingId clockD.now clockD.rand] := rfl
  refine ⟨hr, by decide, by decide, rfl, by decide, by decide, by decide, by decide, rfl, rfl,
    by decide, by decide, rfl, by decide, by decide, by decide, by decide, ?_, by decide, rfl⟩
  rw [hids, makeBookingId_clockB, makeBookingId_clockD]

set_option maxRecDepth 100000 in
theorem digitChar36_upper_injective : ∀ d, d < 36 → ∀ e, e < 36 →
    (digitChar36 d).toUpper = (digitChar36 e).toUpper → d = e := by
  decide

theorem lastSix_eq_mod (t u : Nat) (h : lastSixBase36Upper t = lastSixBase36Upper u) :
    t % 36 ^ 6 = u % 36 ^ 6 := by
  simp only [lastSixBase36Upper, List.map_cons, List.map_nil, List.cons.injEq, and_true] at h
  obtain ⟨h5, h4, h3, h2, h1, h0⟩ := h
  have inj := fun (i : Nat) (hh : (digitChar36 (t / 36 ^ i % 36)).toUpper
      = (digitChar36 (u / 36 ^ i % 36)).toUpper) =>
    digitChar36_upper_injective _ (Nat.mod_lt _ (by norm_num)) _ (Nat.mod_lt _ (by norm_num)) hh
  have e5 := inj 5 h5
  have e4 := inj 4 h4
  have e3 := inj 3 h3
  have e2 := inj 2 h2
  have e1 := inj 1 h1
  have e0 := inj 0 h0
  norm_num at e0 e1 e2 e3 e4 e5 ⊢
  omega

theorem later_identifier_differs (t u : Nat) (r q : Rat) (ht : 36 ^ 5 ≤ t) (hlt : t < u)
    (hnear : u < t + 36 ^ 6) (hr0 : 0 ≤ r) (hr1 : r < 1) (hq0 : 0 ≤ q) (hq1 : q < 1) :
    makeBookingId u q ≠ genBookingId t r := by
  intro h
  have hu : 36 ^ 5 ≤ u := le_trans ht (le_of_lt hlt)
  have h' : genBookingId u q = genBookingId t r := h
  rw [genBookingId_parts u q hu hq0 hq1, genBookingId_parts t r ht hr0 hr1] at h'
  have hl := congrArg String.data h'
  simp only [] at hl
  rw [List.append_assoc, List.append_assoc] at hl
  have hl2 := List.append_cancel_left hl
  have hl3 := (List.append_inj hl2 (by simp [lastSixBase36Upper])).1
  have hm := lastSix_eq_mod u t hl3
  norm_num at hm hnear
  omega

/-! ## Theorems: the shell and the record of the booking flow -/

theorem bookAndForward_eval (r cur : Shell) (c1 c2 : Clock) (hr : canBook r = true)
    (hcur : cur.pending = []) :
    (bookAndForward r cur c1 c2).1.booking = some (bookingPayload c1 (propsOf r))
      ∧ (bookAndForward r cur c1 c2).1.flow = Flow.success
      ∧ (bookAndForward r cur c1 c2).1.notified = [bookingPayload c1 (propsOf r)]
      ∧ (bookAndForward r cur c1 c2).2.booking
          = { status := Flow.success, bookingId := some (makeBookingId c2.now c2.rand),
              message := some (shellMessage r.selectedCar) }
      ∧ (bookAndForward r cur c1 c2).2.ids = cur.ids ++ [makeBookingId c2.now c2.rand] := by
  have hready : isReady (propsOf r) = true := by
    simp only [canBook, Bool.and_eq_true] at hr
    simp [isReady, propsOf, hr.1.1.1, hr.1.1.2, hr.1.2]
  have hb2 : step (propsOf r) (step (propsOf r) BookButton.init Event.clickPrimary)
      Event.confirmPay
      = { BookButton.init with flow := Flow.loading, pending := [propsOf r] } := by
    simp [step, handle, primaryClick, openConfirm, doBook, autoCloseEffect, BookButton.init,
      hready]
  have hb3 : step (propsOf r)
      { BookButton.init with flow := Flow.loading, pending := [propsOf r] }
      (Event.delayElapsed c1 (Except.ok ()))
      = { BookButton.init with flow := Flow.success,
                               booking := some (bookingPayload c1 (propsOf r)),
                               autoClose := true,
                               ids := [genBookingId c1.now c1.rand],
                               notified := [bookingPayload c1 (propsOf r)] } := by
    simp [step, handle, doBookResume, notifyBooked, autoCloseEffect, BookButton.init,
      propsOf, bookingPayload]
  have hs1 : forwardToShell r
      { BookButton.init with flow := Flow.loading, pending := [propsOf r] }
      { BookButton.init with flow := Flow.success,
                             booking := some (bookingPayload c1 (propsOf r)),
                             autoClose := true,
                             ids := [genBookingId c1.now c1.rand],
                             notified := [bookingPayload c1 (propsOf r)] } cur
      = toastEffect cur.booking.status
          { cur with booking := { status := Flow.loading, bookingId := none, message := none },
                     pending := [{ pickupLocation := r.pickupLocation,
                                   dropLocation := r.dropLocation,
                                   selectedCar := r.selectedCar,
                                   extra := some (bookingPayload c1 (propsOf r)) }] } := by
    simp [forwardToShell, BookButton.init, shellStep, shellHandle, handleBookRide, hr, hcur]
  have heff : ∀ (old : Flow) (t : Shell),
      (toastEffect old t).booking = t.booking ∧ (toastEffect old t).pending = t.pending
        ∧ (toastEffect old t).ids = t.ids := by
    intro old t
    unfold toastEffect
    split_ifs <;> exact ⟨rfl, rfl, rfl⟩
  unfold bookAndForward
  simp only [hb2, hb3, hs1]
  refine ⟨trivial, trivial, trivial, ?_, ?_⟩
  · simp only [shellStep, (heff _ _).1]
    simp only [shellHandle, (heff _ _).2.1]
    simp [handleBookRideResume]
  · simp only [shellStep, (heff _ _).2.2]
    simp only [shellHandle, (heff _ _).2.1]
    simp [handleBookRideResume, (heff _ _).2.2]

/-- C10, as stated, fails: in the worked example the booking flow holds the identifier
`RD-L1YQO0550` and, after `handleBookRide` has completed 1100 ms later, the shell's toast
holds `RD-L1YRIK325`. -/
theorem shell_bookingId_differs_from_record :
    (bookAndForward readyShell readyShell clockA clockB).1.booking.map (fun b => b.bookingId)
        = some "RD-L1YQO0550"
      ∧ (bookAndForward readyShell readyShell clockA clockB).2.booking.bookingId
        = some "RD-L1YRIK325"
      ∧ (bookAndForward readyShell readyShell clockA clockB).2.booking.bookingId
        ≠ (bookAndForward readyShell readyShell clockA clockB).1.booking.map
            (fun b => b.bookingId) := by
  obtain ⟨h1, _, _, h4, _⟩ :=
    bookAndForward_eval readyShell readyShell clockA clockB (by decide) rfl
  rw [h1, h4]
  simp only [Option.map_some', bookingPayload, genBookingId_clockA, makeBookingId_clockB]
  decide

/-- C10, amended: when the booking flow succeeds with record `r` and passes it to
`handleBookRide`, the shell runs its own simulated booking; after it completes the shell's
status is success and its bookingId is the identifier `makeBookingId` builds from the
shell's own clock and random value, so it equals `r.bookingId` exactly when the two
generators return the same string, which they do not when the shell reads its clock later
than the booking flow by less than `36^6` ms. -/
theorem shell_bookingId_is_own_identifier (r cur : Shell) (c1 c2 : Clock)
    (hr : canBook r = true) (hcur : cur.pending = []) :
    (bookAndForward r cur c1 c2).1.booking.map (fun b => b.bookingId)
        = some (genBookingId c1.now c1.rand)
      ∧ (bookAndForward r cur c1 c2).1.notified = [bookingPayload c1 (propsOf r)]
      ∧ (bookAndForward r cur c1 c2).2.booking.status = Flow.success
      ∧ (bookAndForward r cur c1 c2).2.booking.bookingId
        = some (makeBookingId c2.now c2.rand)
      ∧ ((bookAndForward r cur c1 c2).2.booking.bookingId
            = (bookAndForward r cur c1 c2).1.booking.map (fun b => b.bookingId)
          ↔ makeBookingId c2.now c2.rand = genBookingId c1.now c1.rand)
      ∧ (36 ^ 5 ≤ c1.now → c1.now < c2.now → c2.now < c1.now + 36 ^ 6 →
          0 ≤ c1.rand → c1.rand < 1 → 0 ≤ c2.rand → c2.rand < 1 →
          (bookAndForward r cur c1 c2).2.booking.bookingId
            ≠ (bookAndForward r cur c1 c2).1.booking.map (fun b => b.bookingId)) := by
  obtain ⟨h1, _, h3, h4, _⟩ := bookAndForward_eval r cur c1 c2 hr hcur
  rw [h1, h4]
  refine ⟨by simp [bookingPayload], h3, rfl, rfl, by simp [bookingPayload], ?_⟩
  intro ht hlt hnear hr0 hr1 hq0 hq1 heq
  simp only [Option.map_some', bookingPayload, Option.some.injEq] at heq
  exact later_identifier_differs c1.now c2.now c1.rand c2.rand ht hlt hnear hr0 hr1 hq0 hq1 heq

theorem shell_bookingId_is_own_identifier_witness :
    (bookAndForward readyShell readyShell clockA clockB).2.booking.bookingId
      = some (makeBookingId clockB.now clockB.rand) :=
  (shell_bookingId_is_own_identifier readyShell readyShell clockA clockB
    (by decide) rfl).2.2.2.1

/-! ## Theorems: transitions and the auto-close timeout of the booking flow -/

theorem step_flow_transition (p : Props) (s : BookButton) (e : Event)
    (hs : flowInvariant s) (he : enabled p s e = true)
    (hne : (step p s e).flow ≠ s.flow) :
    (s.flow, (step p s e).flow) ∈ flowTransitions := by
  have heff : ∀ (old : Flow) (t : BookButton), (autoCloseEffect old t).flow = t.flow := by
    intro old t
    unfold autoCloseEffect
    split_ifs <;> rfl
  obtain ⟨flow, booking, errorMsg, autoClose, pending, ids, notified, console⟩ := s
  obtain ⟨h1, h2, h3⟩ := hs
  simp only at h1 h2 h3
  simp only [step, heff] at hne ⊢
  cases e with
  | clickPrimary =>
    cases flow <;> cases hr : isReady p <;>
      simp_all [handle, primaryClick, openConfirm, enabled, flowTransitions]
  | cancelConfirm =>
    cases flow <;> simp_all [handle, cancelConfirm, enabled, flowTransitions]
  | confirmPay =>
    cases flow <;> cases hr : isReady p <;>
      simp_all [handle, doBook, enabled, flowTransitions]
  | retry =>
    cases flow <;> cases hr : isReady p <;>
      simp_all [handle, doBook, enabled, flowTransitions]
  | dismissError =>
    cases flow <;> simp_all [handle, resetAll, enabled, flowTransitions]
  | closeSuccess =>
    cases flow <;> simp_all [handle, resetAll, enabled, flowTransitions]
  | copyBookingId => simp [handle] at hne
  | autoCloseTimeout =>
    cases flow <;> simp_all [handle, autoCloseFire, enabled, flowTransitions]
  | delayElapsed c a =>
    cases pending with
    | nil => simp [enabled] at he
    | cons q rest =>
      have hl : flow = Flow.loading := by
        rcases h3 with h3 | h3
        · simp at h3
        · exact h3.1
      subst hl
      cases a with
      | error err => simp [handle, doBookResume, flowTransitions]
      | ok u =>
        cases hcb : q.onBookRide with
        | none => simp [handle, doBookResume, notifyBooked, hcb, flowTransitions]
        | some f =>
          cases hf : f (bookingPayload c q) <;>
            simp [handle, doBookResume, notifyBooked, hcb, hf, flowTransitions]

/-- C11, as stated, fails: in the `confirm` state of the worked example the render offers
Cancel, and `cancelConfirm` takes flow from confirm to idle. -/
theorem cancel_goes_from_confirm_to_idle :
    Reachable confirmingButton
      ∧ confirmingButton.flow = Flow.confirm
      ∧ enabled readyProps confirmingButton Event.cancelConfirm = true
      ∧ (step readyProps confirmingButton Event.cancelConfirm).flow = Flow.idle :=
  ⟨Reachable.step _ _ _ Reachable.init (by decide), by decide, by decide, by decide⟩

/-- C11, amended: in every reachable state a transition the render offers either keeps flow
or follows one of the eight pairs of `flowTransitions`; so a transition whose target is idle
has source confirm (cancel), success or error, and the transitions that move flow backwards
are confirm → idle, error → loading, success → idle and error → idle. -/
theorem flow_transitions_classified (p : Props) (s : BookButton) (e : Event)
    (hs : Reachable s) (he : enabled p s e = true)
    (hne : (step p s e).flow ≠ s.flow) :
    (s.flow, (step p s e).flow) ∈ flowTransitions
      ∧ ((step p s e).flow = Flow.idle →
          s.flow = Flow.confirm ∨ s.flow = Flow.success ∨ s.flow = Flow.error)
      ∧ (flowRank (step p s e).flow < flowRank s.flow →
          (s.flow, (step p s e).flow) ∈
            [(Flow.confirm, Flow.idle), (Flow.error, Flow.loading),
             (Flow.success, Flow.idle), (Flow.error, Flow.idle)]) := by
  have h := step_flow_transition p s e (flowInvariant_reachable s hs) he hne
  refine ⟨h, ?_, ?_⟩
  · intro hidle
    rw [hidle] at h
    cases hf : s.flow <;> simp_all [flowTransitions]
  · intro hrank
    cases hf : s.flow <;> cases hg : (step p s e).flow <;>
      simp_all [flowTransitions, flowRank]

theorem flow_transitions_classified_witness :
    (confirmingButton.flow, (step readyProps confirmingButton Event.cancelConfirm).flow)
      ∈ flowTransitions :=
  (flow_transitions_classified readyProps confirmingButton Event.cancelConfirm
    (Reachable.step _ _ _ Reachable.init (by decide)) (by decide) (by decide)).1

theorem autoCloseEffect_fields (old : Flow) (t : BookButton) :
    (autoCloseEffect old t).flow = t.flow ∧ (autoCloseEffect old t).booking = t.booking
      ∧ (autoCloseEffect old t).errorMsg = t.errorMsg
      ∧ (autoCloseEffect old t).pending = t.pending := by
  unfold autoCloseEffect
  split_ifs <;> exact ⟨rfl, rfl, rfl, rfl⟩

theorem autoCloseEffect_autoClose (old : Flow) (t : BookButton) (h : t.flow ≠ old) :
    (autoCloseEffect old t).autoClose
      = if t.flow = Flow.success then true
        else if old = Flow.success then false else t.autoClose := by
  unfold autoCloseEffect
  rw [if_neg h]
  split_ifs <;> rfl

theorem step_autoCloseTimeout (p : Props) (t : BookButton) (h : t.flow = Flow.success) :
    (step p t Event.autoCloseTimeout).flow = Flow.idle
      ∧ (step p t Event.autoCloseTimeout).booking = none
      ∧ (step p t Event.autoCloseTimeout).autoClose = false := by
  have h1 := autoCloseEffect_fields t.flow (autoCloseFire t)
  have h2 := autoCloseEffect_autoClose t.flow (autoCloseFire t) (by simp [autoCloseFire, h])
  refine ⟨?_, ?_, ?_⟩
  · simp only [step, handle, h1.1]
    rfl
  · simp only [step, handle, h1.2.1]
    rfl
  · simp only [step, handle, h2]
    simp [autoCloseFire, h]

theorem handle_autoClose_eq (p : Props) (s : BookButton) (e : Event)
    (h : e ≠ Event.autoCloseTimeout) : (handle p s e).autoClose = s.autoClose := by
  cases e with
  | clickPrimary =>
    simp only [handle, primaryClick, openConfirm]
    split_ifs <;> rfl
  | cancelConfirm => rfl
  | confirmPay =>
    simp only [handle, doBook]
    split_ifs <;> rfl
  | retry =>
    simp only [handle, doBook]
    split_ifs <;> rfl
  | dismissError => rfl
  | closeSuccess => rfl
  | copyBookingId => rfl
  | autoCloseTimeout => exact absurd rfl h
  | delayElapsed c a =>
    simp only [handle]
    cases hq : s.pending with
    | nil => rfl
    | cons q rest =>
      cases a with
      | error err => rfl
      | ok u =>
        simp only [doBookResume, notifyBooked]
        cases q.onBookRide with
        | none => rfl
        | some f =>
          simp only []
          cases f (bookingPayload c q) <;> rfl

theorem handle_flow_error (p : Props) (s : BookButton) (e : Event)
    (ho : Event.occurs e = true) (h : (handle p s e).flow = Flow.error) :
    s.flow = Flow.error := by
  cases e with
  | clickPrimary =>
    simp only [handle, primaryClick, openConfirm] at h
    split_ifs at h <;> exact h
  | cancelConfirm => exact absurd h (by simp [handle, cancelConfirm])
  | confirmPay =>
    simp only [handle, doBook] at h
    split_ifs at h
    exact h
  | retry =>
    simp only [handle, doBook] at h
    split_ifs at h
    exact h
  | dismissError => exact absurd h (by simp [handle, resetAll])
  | closeSuccess => exact absurd h (by simp [handle, resetAll])
  | copyBookingId => exact h
  | autoCloseTimeout => exact absurd h (by simp [handle, autoCloseFire])
  | delayElapsed c a =>
    cases a with
    | error err => simp [Event.occurs] at ho
    | ok u =>
      simp only [handle] at h
      cases hq : s.pending with
      | nil =>
        rw [hq] at h
        exact h
      | cons q rest =>
        rw [hq] at h
        simp only [doBookResume, notifyBooked] at h
        cases hcb : q.onBookRide with
        | none =>
          rw [hcb] at h
          exact absurd h (by simp)
        | some f =>
          rw [hcb] at h
          simp only [] at h
          cases hf : f (bookingPayload c q) <;> rw [hf] at h <;> exact absurd h (by simp)

theorem programReachable_reachable (s : BookButton) (h : ProgramReachable s) :
    Reachable s := by
  induction h with
  | init => exact Reachable.init
  | step p e s _ he _ ih => exact Reachable.step p e s ih he

theorem programReachable_flow (s : BookButton) (h : ProgramReachable s) :
    s.flow ≠ Flow.error ∧ (s.flow = Flow.success → s.autoClose = true) := by
  induction h with
  | init => exact ⟨by decide, fun h => absurd h (by decide)⟩
  | step p e s hs he ho ih =>
    have hstep : (step p s e).flow = (handle p s e).flow :=
      (autoCloseEffect_fields _ _).1
    refine ⟨?_, ?_⟩
    · rw [hstep]
      intro herr
      exact ih.1 (handle_flow_error p s e ho herr)
    · intro hsucc
      rw [hstep] at hsucc
      by_cases hne : (handle p s e).flow = s.flow
      · have hs' : s.flow = Flow.success := by
          rw [← hne]
          exact hsucc
        have hev : e ≠ Event.autoCloseTimeout := by
          intro heq
          rw [heq] at hsucc
          exact absurd hsucc (by simp [handle, autoCloseFire])
        show (autoCloseEffect s.flow (handle p s e)).autoClose = true
        unfold autoCloseEffect
        rw [if_pos hne, handle_autoClose_eq p s e hev]
        exact ih.2 hs'
      · show (autoCloseEffect s.flow (handle p s e)).autoClose = true
        rw [autoCloseEffect_autoClose s.flow (handle p s e) hne, if_pos hsucc]

/-- C12: in every state the component reaches in the program, whenever a transition makes
flow success or error the auto-close timeout is armed, and its expiry, offered under any props
with no further user interaction, returns the component to flow = idle with booking cleared
and no timeout pending.  The flow that such a transition enters is success: the `catch` at
lines 90-94 is the only place that sets error and no execution reaches it, so the error alert
is never displayed; and in every state with flow = success the timeout is pending, so the
success card does not stay displayed indefinitely. -/
theorem success_or_error_arms_timeout :
    (∀ (p p' : Props) (s : BookButton) (e : Event),
        ProgramReachable s → enabled p s e = true → Event.occurs e = true →
        (step p s e).flow ≠ s.flow →
        (step p s e).flow = Flow.success ∨ (step p s e).flow = Flow.error →
        (step p s e).flow = Flow.success
          ∧ (step p s e).autoClose = true
          ∧ enabled p' (step p s e) Event.autoCloseTimeout = true
          ∧ (step p' (step p s e) Event.autoCloseTimeout).flow = Flow.idle
          ∧ (step p' (step p s e) Event.autoCloseTimeout).booking = none
          ∧ (step p' (step p s e) Event.autoCloseTimeout).autoClose = false)
      ∧ (∀ (p' : Props) (s : BookButton), ProgramReachable s →
          s.flow ≠ Flow.error
            ∧ (s.flow = Flow.success →
                s.autoClose = true
                  ∧ enabled p' s Event.autoCloseTimeout = true
                  ∧ (step p' s Event.autoCloseTimeout).flow = Flow.idle
                  ∧ (step p' s Event.autoCloseTimeout).booking = none)) := by
  constructor
  · intro p p' s e hs he ho _ hto
    have hs' : ProgramReachable (step p s e) := ProgramReachable.step p e s hs he ho
    have hf := programReachable_flow _ hs'
    have hsucc : (step p s e).flow = Flow.success := by
      rcases hto with h | h
      · exact h
      · exact absurd h hf.1
    have hac := hf.2 hsucc
    obtain ⟨t1, t2, t3⟩ := step_autoCloseTimeout p' (step p s e) hsucc
    exact ⟨hsucc, hac, by simpa [enabled] using hac, t1, t2, t3⟩
  · intro p' s hs
    have hf := programReachable_flow s hs
    refine ⟨hf.1, fun hsucc => ?_⟩
    have hac := hf.2 hsucc
    obtain ⟨t1, t2, _⟩ := step_autoCloseTimeout p' s hsucc
    exact ⟨hac, by simpa [enabled] using hac, t1, t2⟩

theorem success_or_error_arms_timeout_witness :
    bookedButton.flow = Flow.success
      ∧ bookedButton.autoClose = true
      ∧ enabled readyProps bookedButton Event.autoCloseTimeout = true
      ∧ (step readyProps bookedButton Event.autoCloseTimeout).flow = Flow.idle
      ∧ (step readyProps bookedButton Event.autoCloseTimeout).booking = none
      ∧ (step readyProps bookedButton Event.autoCloseTimeout).autoClose = false :=
  success_or_error_arms_timeout.1 readyProps readyProps
    (step readyProps (step readyProps BookButton.init Event.clickPrimary) Event.confirmPay)
    (Event.delayElapsed clockA (Except.ok ()))
    (ProgramReachable.step _ _ _
      (ProgramReachable.step _ _ _ ProgramReachable.init (by decide) (by decide))
      (by decide) (by decide))
    (by decide) (by decide) (by decide) (Or.inl (by decide))

/-! ## Theorems: timer handles -/

theorem timerInvariant_rearm (arms : Flow → Bool) (old new : Flow) (flag : Bool)
    (h : Option Flow) (hinv : timerInvariant arms old flag h true) :
    timerInvariant arms new
      (if new = old then flag else if arms new = true then true
        else if arms old = true then false else flag)
      (rearm arms old new h) true := by
  obtain ⟨h1, h2⟩ := hinv
  unfold rearm
  by_cases hno : new = old
  · subst hno
    simp only [if_true]
    exact ⟨h1, h2⟩
  · simp only [if_neg hno]
    by_cases hn : arms new = true
    · simp only [if_pos hn]
      refine ⟨by simp, ?_⟩
      intro f hf
      cases hf
      exact ⟨rfl, rfl, hn⟩
    · simp only [if_neg hn]
      by_cases ho : arms old = true
      · simp only [if_pos ho]
        exact ⟨by simp, by intro f hf; cases hf⟩
      · simp only [if_neg ho]
        cases h with
        | none =>
          refine ⟨h1, ?_⟩
          intro f hf
          cases hf
        | some f =>
          obtain ⟨_, hf1, hf2⟩ := h2 f rfl
          rw [hf1] at hf2
          exact absurd hf2 ho

theorem timerInvariant_none (arms : Flow → Bool) (status : Flow) (mounted : Bool) :
    timerInvariant arms status false none mounted :=
  ⟨by simp, by intro f hf; cases hf⟩

theorem autoCloseEffect_flag (old : Flow) (t : BookButton) :
    (autoCloseEffect old t).autoClose
      = if t.flow = old then t.autoClose else if autoCloseStatus t.flow = true then true
        else if autoCloseStatus old = true then false else t.autoClose := by
  unfold autoCloseEffect autoCloseStatus
  split_ifs <;> simp_all

theorem handle_keeps_autoClose (p : Props) (s : BookButton) (e : Event)
    (he : e ≠ Event.autoCloseTimeout) :
    (handle p s e).autoClose = s.autoClose := by
  cases e with
  | clickPrimary =>
    simp only [handle, primaryClick, openConfirm]
    split_ifs <;> rfl
  | cancelConfirm => rfl
  | confirmPay =>
    simp only [handle, doBook]
    split_ifs <;> rfl
  | retry =>
    simp only [handle, doBook]
    split_ifs <;> rfl
  | dismissError => rfl
  | closeSuccess => rfl
  | copyBookingId => rfl
  | autoCloseTimeout => exact absurd rfl he
  | delayElapsed c a =>
    simp only [handle]
    cases hq : s.pending with
    | nil => rfl
    | cons q rest =>
      cases a with
      | error err => rfl
      | ok u =>
        simp only [doBookResume, notifyBooked]
        cases q.onBookRide with
        | none => rfl
        | some f =>
          simp only []
          cases f (bookingPayload c q) <;> rfl

theorem buttonTimerInvariant_step (p : Props) (m : Mounted BookButton) (l : Lifecycle Event)
    (hinv : timerInvariant autoCloseStatus m.state.flow m.state.autoClose m.armedBy m.mounted)
    (hen : buttonEnabledM p m l = true) :
    timerInvariant autoCloseStatus (buttonStepM p m l).state.flow
      (buttonStepM p m l).state.autoClose (buttonStepM p m l).armedBy
      (buttonStepM p m l).mounted := by
  cases l with
  | teardown => exact timerInvariant_none _ _ _
  | event e =>
    have hm : m.mounted = true := by
      simp only [buttonEnabledM, Bool.and_eq_true] at hen
      exact hen.1
    rw [hm] at hinv
    have hflow : (step p m.state e).flow = (handle p m.state e).flow :=
      (autoCloseEffect_fields _ _).1
    simp only [buttonStepM, hm]
    rw [show (step p m.state e).autoClose
        = (autoCloseEffect m.state.flow (handle p m.state e)).autoClose from rfl,
      autoCloseEffect_flag, ← hflow]
    by_cases het : e = Event.autoCloseTimeout
    · subst het
      have hf : (handle p m.state Event.autoCloseTimeout).autoClose = false := rfl
      rw [hf]
      exact timerInvariant_rearm _ _ _ _ _ (timerInvariant_none _ _ _)
    · rw [handle_keeps_autoClose p m.state e het]
      have hh : buttonHandleAfter e m.armedBy = m.armedBy := by
        cases e <;> first | rfl | exact absurd rfl het
      rw [hh]
      exact timerInvariant_rearm _ _ _ _ _ hinv

theorem buttonTimerInvariant_reachable (m : Mounted BookButton) (h : ButtonReachableM m) :
    timerInvariant autoCloseStatus m.state.flow m.state.autoClose m.armedBy m.mounted := by
  induction h with
  | init => exact timerInvariant_none _ _ _
  | step p l m _ hen ih => exact buttonTimerInvariant_step p m l ih hen

theorem toastEffect_fields (old : Flow) (t : Shell) :
    (toastEffect old t).booking = t.booking
      ∧ (toastEffect old t).toast
        = (if t.booking.status = old then t.toast
           else if toastStatus t.booking.status = true then true
           else if toastStatus old = true then false else t.toast) := by
  unfold toastEffect
  split_ifs <;> exact ⟨rfl, rfl⟩

theorem shellHandle_keeps_toast (s : Shell) (e : ShellEvent)
    (he : e ≠ ShellEvent.toastTimeout) : (shellHandle s e).toast = s.toast := by
  cases e with
  | pickupSelect l => rfl
  | dropSelect l => rfl
  | carSelect c => rfl
  | bookRide r extra =>
    simp only [shellHandle, handleBookRide]
    split_ifs <;> rfl
  | delayElapsed c a =>
    simp only [shellHandle]
    cases hq : s.pending with
    | nil => rfl
    | cons q rest => cases a <;> rfl
  | logout => rfl
  | toastTimeout => exact absurd rfl he
  | toggleSidebar => rfl
  | closeSidebar => rfl

theorem shellTimerInvariant_step (m : Mounted Shell) (l : Lifecycle ShellEvent)
    (hinv : timerInvariant toastStatus m.state.booking.status m.state.toast m.armedBy
      m.mounted)
    (hen : shellEnabledM m l = true) :
    timerInvariant toastStatus (shellStepM m l).state.booking.status
      (shellStepM m l).state.toast (shellStepM m l).armedBy (shellStepM m l).mounted := by
  cases l with
  | teardown => exact timerInvariant_none _ _ _
  | event e =>
    have hm : m.mounted = true := by
      simp only [shellEnabledM, Bool.and_eq_true] at hen
      exact hen.1
    rw [hm] at hinv
    have hst : (shellStep m.state e).booking = (shellHandle m.state e).booking :=
      (toastEffect_fields _ _).1
    simp only [shellStepM, hm]
    rw [show (shellStep m.state e).toast
        = (toastEffect m.state.booking.status (shellHandle m.state e)).toast from rfl,
      (toastEffect_fields _ _).2, ← hst]
    by_cases het : e = ShellEvent.toastTimeout
    · subst het
      have hf : (shellHandle m.state ShellEvent.toastTimeout).toast = false := rfl
      rw [hf]
      exact timerInvariant_rearm _ _ _ _ _ (timerInvariant_none _ _ _)
    · rw [shellHandle_keeps_toast m.state e het]
      have hh : shellHandleAfter e m.armedBy = m.armedBy := by
        cases e <;> first | rfl | exact absurd rfl het
      rw [hh]
      exact timerInvariant_rearm _ _ _ _ _ hinv

theorem shellTimerInvariant_reachable (m : Mounted Shell) (h : ShellReachableM m) :
    timerInvariant toastStatus m.state.booking.status m.state.toast m.armedBy m.mounted := by
  induction h with
  | init => exact timerInvariant_none _ _ _
  | step l m _ hen ih => exact shellTimerInvariant_step m l ih hen

/-- C13: with the timer handle as explicit state, in every reachable state of the mounted
booking flow and of the mounted shell a pending timeout was armed by the status that is
still current (success for the booking flow, success or error for the shell); the expiry is
offered only then, so it never fires in idle, confirm or loading; a transition that changes
the status leaves a handle different from the one pending before it; teardown leaves no
handle and offers nothing afterwards. -/
theorem timer_pending_only_in_arming_status :
    (∀ m, ButtonReachableM m →
        (∀ f, m.armedBy = some f → m.mounted = true ∧ f = m.state.flow ∧ f = Flow.success)
          ∧ (m.state.autoClose = true ↔ m.armedBy.isSome = true)
          ∧ (∀ p, buttonEnabledM p m (Lifecycle.event Event.autoCloseTimeout) = true →
              m.state.flow = Flow.success)
          ∧ (∀ p l, buttonEnabledM p m l = true →
              (buttonStepM p m l).state.flow ≠ m.state.flow → m.armedBy.isSome = true →
              (buttonStepM p m l).armedBy ≠ m.armedBy)
          ∧ (∀ p, (buttonStepM p m Lifecycle.teardown).armedBy = none
              ∧ (buttonStepM p m Lifecycle.teardown).state.autoClose = false
              ∧ ∀ q l, buttonEnabledM q (buttonStepM p m Lifecycle.teardown) l = false))
      ∧ (∀ m, ShellReachableM m →
        (∀ f, m.armedBy = some f → m.mounted = true ∧ f = m.state.booking.status
            ∧ (f = Flow.success ∨ f = Flow.error))
          ∧ (m.state.toast = true ↔ m.armedBy.isSome = true)
          ∧ (shellEnabledM m (Lifecycle.event ShellEvent.toastTimeout) = true →
              m.state.booking.status = Flow.success ∨ m.state.booking.status = Flow.error)
          ∧ (∀ l, shellEnabledM m l = true →
              (shellStepM m l).state.booking.status ≠ m.state.booking.status →
              m.armedBy.isSome = true → (shellStepM m l).armedBy ≠ m.armedBy)
          ∧ ((shellStepM m Lifecycle.teardown).armedBy = none
              ∧ (shellStepM m Lifecycle.teardown).state.toast = false
              ∧ ∀ l, shellEnabledM (shellStepM m Lifecycle.teardown) l = false)) := by
  constructor
  · intro m hm
    have hinv := buttonTimerInvariant_reachable m hm
    obtain ⟨h1, h2⟩ := hinv
    have harm : ∀ f, m.armedBy = some f →
        m.mounted = true ∧ f = m.state.flow ∧ f = Flow.success := by
      intro f hf
      obtain ⟨a, b, c⟩ := h2 f hf
      exact ⟨a, b, by simpa [autoCloseStatus] using c⟩
    refine ⟨harm, h1, ?_, ?_, ?_⟩
    · intro p hen
      simp only [buttonEnabledM, enabled, Bool.and_eq_true] at hen
      cases hh : m.armedBy with
      | none =>
        have := h1.mp hen.2
        rw [hh] at this
        simp at this
      | some f =>
        obtain ⟨_, b, c⟩ := harm f hh
        rw [← b]
        exact c
    · intro p l hen hne hsome heq
      have hnext := (buttonTimerInvariant_step p m l ⟨h1, h2⟩ hen).2
      cases hh : m.armedBy with
      | none =>
        rw [hh] at hsome
        simp at hsome
      | some f =>
        have hold := (h2 f hh).2.1
        have hnew := (hnext f (by rw [heq, hh])).2.1
        exact hne (by rw [← hnew, ← hold])
    · intro p
      refine ⟨rfl, rfl, ?_⟩
      intro q l
      cases l <;> simp [buttonEnabledM, buttonStepM]
  · intro m hm
    have hinv := shellTimerInvariant_reachable m hm
    obtain ⟨h1, h2⟩ := hinv
    have harm : ∀ f, m.armedBy = some f →
        m.mounted = true ∧ f = m.state.booking.status
          ∧ (f = Flow.success ∨ f = Flow.error) := by
      intro f hf
      obtain ⟨a, b, c⟩ := h2 f hf
      exact ⟨a, b, by simpa [toastStatus] using c⟩
    refine ⟨harm, h1, ?_, ?_, ?_⟩
    · intro hen
      simp only [shellEnabledM, shellEnabled, Bool.and_eq_true] at hen
      cases hh : m.armedBy with
      | none =>
        have := h1.mp hen.2
        rw [hh] at this
        simp at this
      | some f =>
        obtain ⟨_, b, c⟩ := harm f hh
        rw [← b]
        exact c
    · intro l hen hne hsome heq
      have hnext := (shellTimerInvariant_step m l ⟨h1, h2⟩ hen).2
      cases hh : m.armedBy with
      | none =>
        rw [hh] at hsome
        simp at hsome
      | some f =>
        have hold := (h2 f hh).2.1
        have hnew := (hnext f (by rw [heq, hh])).2.1
        exact hne (by rw [← hnew, ← hold])
    · refine ⟨rfl, rfl, ?_⟩
      intro l
      cases l <;> simp [shellEnabledM, shellStepM]

theorem timer_pending_only_in_arming_status_witness :
    bookedMounted.armedBy = some Flow.success
      ∧ bookedMounted.mounted = true ∧ Flow.success = bookedMounted.state.flow
      ∧ (buttonStepM readyProps bookedMounted
          (Lifecycle.event Event.closeSuccess)).armedBy ≠ bookedMounted.armedBy :=
  have hr : ButtonReachableM bookedMounted :=
    ButtonReachableM.step _ _ _
      (ButtonReachableM.step _ _ _
        (ButtonReachableM.step _ _ _ ButtonReachableM.init (by decide)) (by decide))
      (by decide)
  ⟨by decide,
    ((timer_pending_only_in_arming_status.1 bookedMounted hr).1 Flow.success
      (by decide)).1,
    ((timer_pending_only_in_arming_status.1 bookedMounted hr).1 Flow.success
      (by decide)).2.1,
    (timer_pending_only_in_arming_status.1 bookedMounted hr).2.2.2.1 readyProps
      (Lifecycle.event Event.closeSuccess) (by decide) (by decide) (by decide)⟩

/-! ## Theorems: proximity clustering -/

section ClusteringProofs

variable {α : Type} {D : Type} [LE D] [DecidableRel ((· ≤ ·) : D → D → Prop)]

theorem foldl_absorb (dist : α → α → D) (T : D) (base : α) :
    ∀ (l : List (Nat × α)) (c : List α) (U : List Nat), (l.map Prod.fst).Nodup →
      l.foldl (absorb dist T base) (c, U)
        = (c ++ (l.filter
              (fun jp => decide (jp.1 ∉ U) && decide (dist base jp.2 ≤ T))).map Prod.snd,
           U ++ (l.filter
              (fun jp => decide (jp.1 ∉ U) && decide (dist base jp.2 ≤ T))).map Prod.fst) := by
  intro l
  induction l with
  | nil =>
    intro c U _
    simp
  | cons jp l ih =>
    intro c U hnd
    rw [List.map_cons, List.nodup_cons] at hnd
    obtain ⟨hnot, hnd'⟩ := hnd
    rw [List.foldl_cons]
    by_cases hU : jp.1 ∈ U
    · have hab : absorb dist T base (c, U) jp = (c, U) := by
        simp [absorb, hU]
      rw [hab, ih c U hnd']
      simp [List.filter_cons, hU]
    · by_cases hw : dist base jp.2 ≤ T
      · have hab : absorb dist T base (c, U) jp = (c ++ [jp.2], U ++ [jp.1]) := by
          simp [absorb, hU, hw]
        rw [hab, ih _ _ hnd']
        have hcongr : l.filter
              (fun x => decide (x.1 ∉ U ++ [jp.1]) && decide (dist base x.2 ≤ T))
            = l.filter (fun x => decide (x.1 ∉ U) && decide (dist base x.2 ≤ T)) := by
          apply List.filter_congr
          intro x hx
          have hne : x.1 ≠ jp.1 := by
            intro h
            apply hnot
            rw [← h]
            exact List.mem_map_of_mem _ hx
          simp [hne]
        rw [hcongr]
        simp [List.filter_cons, hU, hw]
      · have hab : absorb dist T base (c, U) jp = (c, U) := by
          simp [absorb, hU, hw]
        rw [hab, ih c U hnd']
        simp [List.filter_cons, hU, hw]

theorem greedyClusters_nil (dist : α → α → D) (T : D) :
    greedyClusters dist T [] = [] := by
  rw [greedyClusters]

theorem greedyClusters_cons (dist : α → α → D) (T : D) (seed : α) (rest : List α) :
    greedyClusters dist T (seed :: rest)
      = (seed :: rest.filter (fun p => decide (dist seed p ≤ T)))
          :: greedyClusters dist T (rest.filter (fun p => !decide (dist seed p ≤ T))) := by
  rw [greedyClusters]

theorem foldl_clusterFrom (dist : α → α → D) (T : D) (points : List α) :
    ∀ (n k : Nat) (C : List (List α)) (U : List Nat), points.length - k = n →
      ((points.enum.drop k).foldl (clusterFrom dist T points) (C, U)).1
        = C ++ greedyClusters dist T
            (((points.enum.drop k).filter (fun jp => decide (jp.1 ∉ U))).map Prod.snd) := by
  intro n
  induction n with
  | zero =>
    intro k C U hk
    have hle : points.enum.length ≤ k := by
      rw [List.enum_length]
      omega
    rw [List.drop_eq_nil_of_le hle]
    simp [greedyClusters_nil]
  | succ n ih =>
    intro k C U hk
    have hk' : k < points.length := by omega
    have hlt : k < points.enum.length := by
      rw [List.enum_length]
      exact hk'
    have hdrop : points.enum.drop k = (k, points[k]) :: points.enum.drop (k + 1) := by
      rw [List.drop_eq_getElem_cons hlt, List.getElem_enum]
    have hnd : ((points.enum.drop k).map Prod.fst).Nodup := by
      rw [List.map_drop, List.enum_map_fst]
      exact (List.nodup_range _).sublist (List.drop_sublist _ _)
    rw [hdrop] at hnd ⊢
    rw [List.map_cons, List.nodup_cons] at hnd
    obtain ⟨hnot0, hnd'⟩ := hnd
    have hnot : k ∉ (points.enum.drop (k + 1)).map Prod.fst := hnot0
    clear hnot0
    rw [List.foldl_cons]
    by_cases hU : k ∈ U
    · have hcf : clusterFrom dist T points (C, U) (k, points[k]) = (C, U) := by
        simp [clusterFrom, hU]
      rw [hcf, ih (k + 1) C U (by omega)]
      simp [List.filter_cons, hU]
    · generalize points[k] = b
      have hcf : clusterFrom dist T points (C, U) (k, b)
          = (C ++ [b :: ((points.enum.drop (k + 1)).filter
                (fun jp => decide (jp.1 ∉ U ++ [k]) && decide (dist b jp.2 ≤ T))).map
                  Prod.snd],
             U ++ [k] ++ ((points.enum.drop (k + 1)).filter
                (fun jp => decide (jp.1 ∉ U ++ [k]) && decide (dist b jp.2 ≤ T))).map
                  Prod.fst) := by
        simp only [clusterFrom, if_neg hU]
        rw [foldl_absorb dist T b _ _ _ hnd']
        simp
      rw [hcf, ih (k + 1) _ _ (by omega)]
      have hne : ∀ x ∈ points.enum.drop (k + 1), x.1 ≠ k := by
        intro x hx h
        have hm : x.1 ∈ (points.enum.drop (k + 1)).map Prod.fst :=
          List.mem_map_of_mem _ hx
        rw [h] at hm
        exact hnot hm
      have hW : (points.enum.drop (k + 1)).filter
            (fun jp => decide (jp.1 ∉ U ++ [k]) && decide (dist b jp.2 ≤ T))
          = (points.enum.drop (k + 1)).filter
            (fun jp => decide (jp.1 ∉ U) && decide (dist b jp.2 ≤ T)) := by
        apply List.filter_congr
        intro x hx
        simp [hne x hx]
      rw [hW]
      have hinj := List.inj_on_of_nodup_map hnd'
      have hrest : (points.enum.drop (k + 1)).filter
            (fun jp => decide (jp.1 ∉ U ++ [k] ++ ((points.enum.drop (k + 1)).filter
              (fun jp => decide (jp.1 ∉ U) && decide (dist b jp.2 ≤ T))).map Prod.fst))
          = (points.enum.drop (k + 1)).filter
            (fun jp => decide (jp.1 ∉ U) && !decide (dist b jp.2 ≤ T)) := by
        apply List.filter_congr
        intro x hx
        have hmem : x.1 ∈ ((points.enum.drop (k + 1)).filter
              (fun jp => decide (jp.1 ∉ U) && decide (dist b jp.2 ≤ T))).map Prod.fst
            ↔ (x.1 ∉ U ∧ dist b x.2 ≤ T) := by
          constructor
          · intro hm
            obtain ⟨y, hy, hyx⟩ := List.mem_map.mp hm
            have hy' := List.mem_filter.mp hy
            have hxy : y = x := hinj hy'.1 hx hyx
            subst hxy
            simpa using hy'.2
          · intro hm
            apply List.mem_map_of_mem
            apply List.mem_filter.mpr
            exact ⟨hx, by simpa using hm⟩
        generalize List.map Prod.fst (List.filter
          (fun jp => decide (jp.1 ∉ U) && decide (dist b jp.2 ≤ T))
          (List.drop (k + 1) points.enum)) = M at hmem ⊢
        have hxk : x.1 ≠ k := hne x hx
        by_cases h1 : x.1 ∈ U
        · simp [h1]
        · by_cases h2 : dist b x.2 ≤ T
          · simp [h1, h2, hmem]
          · simp [h1, h2, hmem, hxk]
      rw [hrest]
      have e1 : List.filter (fun p => decide (dist b p ≤ T))
            (List.map Prod.snd
              (List.filter (fun jp => decide (jp.1 ∉ U)) (points.enum.drop (k + 1))))
          = List.map Prod.snd (List.filter
              (fun jp => decide (jp.1 ∉ U) && decide (dist b jp.2 ≤ T))
              (points.enum.drop (k + 1))) := by
        rw [List.filter_map, List.filter_filter]
        congr 1
        apply List.filter_congr
        intro x _
        simp [Bool.and_comm]
      have e2 : List.filter (fun p => !decide (dist b p ≤ T))
            (List.map Prod.snd
              (List.filter (fun jp => decide (jp.1 ∉ U)) (points.enum.drop (k + 1))))
          = List.map Prod.snd (List.filter
              (fun jp => decide (jp.1 ∉ U) && !decide (dist b jp.2 ≤ T))
              (points.enum.drop (k + 1))) := by
        rw [List.filter_map, List.filter_filter]
        congr 1
        apply List.filter_congr
        intro x _
        simp [Bool.and_comm]
      simp only [List.filter_cons, hU, not_false_eq_true, decide_True, if_true, List.map_cons]
      rw [greedyClusters_cons, e1, e2, List.append_assoc]
      rfl

theorem clusterNearby_eq_greedy (dist : α → α → D) (T : D) (ps : List α) :
    clusterNearby dist (some ps) T = Except.ok (greedyClusters dist T ps) := by
  unfold clusterNearby
  by_cases hlen : ps.length ≤ 1
  · simp only [if_pos hlen]
    match ps, hlen with
    | [], _ => simp [greedyClusters_nil]
    | [p], _ => simp [greedyClusters_cons, greedyClusters_nil]
    | _ :: _ :: _, h => simp at h
  · simp only [if_neg hlen]
    have h := foldl_clusterFrom dist T ps ps.length 0 [] [] (by simp)
    simp only [List.drop_zero, List.nil_append, List.not_mem_nil, not_false_eq_true,
      decide_True, List.filter_true, List.enum_map_snd] at h
    rw [h]

end ClusteringProofs

section ClusteringClaims

variable {α : Type} {D : Type} [LinearOrder D]

theorem clusterNearby_three_split (dist : α → α → D) (T : D) (A B C : α)
    (hAB : dist A B ≤ T) (hAC : T < dist A C) :
    clusterNearby dist (some [A, B, C]) T = Except.ok [[A, B], [C]] := by
  rw [clusterNearby_eq_greedy]
  simp [greedyClusters_cons, greedyClusters_nil, List.filter_cons, hAB, not_le.mpr hAC]

theorem clusterNearby_three_joined (dist : α → α → D) (T : D) (A B C : α)
    (hBA : dist B A ≤ T) (hBC : dist B C ≤ T) :
    clusterNearby dist (some [B, A, C]) T = Except.ok [[B, A, C]] := by
  rw [clusterNearby_eq_greedy]
  simp [greedyClusters_cons, greedyClusters_nil, List.filter_cons, hBA, hBC]

/-- C14: `clusterNearby` follows the greedy seed rule.  For every list of points and every
threshold the result is the one of `greedyClusters`: the first cluster is the first point
followed by exactly the later points within the threshold of it, in input order, and the
remaining clusters are the result for the later points that are not within the threshold of
it; distances are taken to the seed only. -/
theorem clusterNearby_greedy_seed_rule (dist : α → α → D) (T : D) (ps : List α) :
    clusterNearby dist (some ps) T = Except.ok (greedyClusters dist T ps)
      ∧ (∀ seed rest, ps = seed :: rest →
          ∃ cs, clusterNearby dist (some (rest.filter (fun p => !decide (dist seed p ≤ T)))) T
                = Except.ok cs
            ∧ clusterNearby dist (some ps) T
                = Except.ok ((seed :: rest.filter (fun p => decide (dist seed p ≤ T))) :: cs)) := by
  refine ⟨clusterNearby_eq_greedy dist T ps, ?_⟩
  intro seed rest hps
  refine ⟨greedyClusters dist T (rest.filter (fun p => !decide (dist seed p ≤ T))),
    clusterNearby_eq_greedy dist T _, ?_⟩
  rw [clusterNearby_eq_greedy, hps, greedyClusters_cons]

/-- C15, amended: for points A, B, C and threshold T with dist(A,B) ≤ T and dist(A,C) > T,
`clusterNearby([A, B, C], T)` returns exactly two clusters, [A, B] and [C], whatever the
distance from B to C is. -/
theorem clusterNearby_chain_gives_two_clusters (dist : α → α → D) (T : D) (A B C : α)
    (hAB : dist A B ≤ T) (hAC : T < dist A C) :
    clusterNearby dist (some [A, B, C]) T = Except.ok [[A, B], [C]] :=
  clusterNearby_three_split dist T A B C hAB hAC

/-- C16: `clusterNearby` depends on the input order and is not mutual.  Whenever three
points satisfy dist(A,B) ≤ T, dist(B,A) ≤ T, dist(B,C) ≤ T and dist(A,C) > T, the list
[A, B, C] and its reordering [B, A, C] give results with the same points but a different
number of clusters, and the cluster returned for [B, A, C] holds A and C, both within T of
the seed B and more than T apart. -/
theorem clusterNearby_order_dependent_not_mutual (dist : α → α → D) (T : D) (A B C : α)
    (hAB : dist A B ≤ T) (hBA : dist B A ≤ T) (hBC : dist B C ≤ T) (hAC : T < dist A C) :
    (∃ ps qs r1 r2, ps.Perm qs
        ∧ clusterNearby dist (some ps) T = Except.ok r1
        ∧ clusterNearby dist (some qs) T = Except.ok r2
        ∧ r1.flatten.Perm r2.flatten ∧ r1.length ≠ r2.length)
      ∧ (∃ ps r cluster seed x y, clusterNearby dist (some ps) T = Except.ok r
          ∧ cluster ∈ r ∧ cluster.head? = some seed ∧ x ∈ cluster ∧ y ∈ cluster
          ∧ dist seed x ≤ T ∧ dist seed y ≤ T ∧ T < dist x y) := by
  constructor
  · refine ⟨[A, B, C], [B, A, C], [[A, B], [C]], [[B, A, C]], List.Perm.swap B A [C],
      clusterNearby_three_split dist T A B C hAB hAC,
      clusterNearby_three_joined dist T A B C hBA hBC, ?_, by simp⟩
    simpa using List.Perm.swap B A [C]
  · exact ⟨[B, A, C], [[B, A, C]], [B, A, C], B, A, C,
      clusterNearby_three_joined dist T A B C hBA hBC, by simp, rfl, by simp, by simp,
      hBA, hBC, hAC⟩

end ClusteringClaims

/-- C15, as stated, fails: on a line with A = 0, B = 1, C = 2 and T = 1 the three
hypotheses hold and `clusterNearby([A, B, C], T)` returns the two clusters [0, 1] and
[2]. -/
theorem clusterNearby_chain_not_one_cluster :
    lineDist 0 1 ≤ 1 ∧ lineDist 1 2 ≤ 1 ∧ 1 < lineDist 0 2
      ∧ clusterNearby lineDist (some [0, 1, 2]) 1 = Except.ok [[0, 1], [2]]
      ∧ clusterNearby lineDist (some [0, 1, 2]) 1 ≠ Except.ok [[0, 1, 2]] := by
  refine ⟨by decide, by decide, by decide, rfl, ?_⟩
  rw [show clusterNearby lineDist (some [0, 1, 2]) 1 = Except.ok [[0, 1], [2]] from rfl]
  intro h
  injection h with h
  simp at h

theorem clusterNearby_chain_gives_two_clusters_witness :
    clusterNearby lineDist (some [0, 1, 2]) 1 = Except.ok [[0, 1], [2]] :=
  clusterNearby_chain_gives_two_clusters lineDist 1 0 1 2 (by decide) (by decide)

theorem clusterNearby_order_dependent_not_mutual_witness :
    ∃ ps qs r1 r2, ps.Perm qs
      ∧ clusterNearby lineDist (some ps) 1 = Except.ok r1
      ∧ clusterNearby lineDist (some qs) 1 = Except.ok r2
      ∧ r1.flatten.Perm r2.flatten ∧ r1.length ≠ r2.length :=
  (clusterNearby_order_dependent_not_mutual lineDist 1 0 1 2 (by decide) (by decide)
    (by decide) (by decide)).1

/-! ## Theorems: map centre -/

theorem foldl_jsAdd_some (f : LiveVehicle → Option Rat) :
    ∀ (c : List LiveVehicle) (xs : List Rat) (a : Rat), c.map f = xs.map some →
      c.foldl (fun acc p => jsAdd acc (f p)) (some a) = some (a + xs.sum) := by
  intro c
  induction c with
  | nil =>
    intro xs a h
    cases xs with
    | nil => simp
    | cons x xs => simp at h
  | cons p c ih =>
    intro xs a h
    cases xs with
    | nil => simp at h
    | cons x xs =>
      simp only [List.map_cons, List.cons.injEq] at h
      obtain ⟨hp, hrest⟩ := h
      have hstep : jsAdd (some a) (f p) = some (a + x) := by
        rw [hp]
        rfl
      rw [List.foldl_cons, hstep, ih xs (a + x) hrest, List.sum_cons, add_assoc]

theorem mapStep_keeps_center (s : MapState) (e : MapEvent) (he : e.recenters = false) :
    (mapStep s e).mapCenter = s.mapCenter := by
  cases e with
  | pickupChanged l => simp [MapEvent.recenters] at he
  | clusterClick c => simp [MapEvent.recenters] at he
  | fetchStarted => rfl
  | fetchSettled o =>
    simp only [mapStep, fetchCarsSettle]
    cases fetchCarsTry o <;> rfl
  | markerClick car => rfl
  | mapClick => rfl
  | closeDriver => rfl

theorem foldl_mapStep_keeps_center (es : List MapEvent) :
    ∀ s : MapState, (∀ e ∈ es, e.recenters = false) →
      (es.foldl mapStep s).mapCenter = s.mapCenter := by
  induction es with
  | nil =>
    intro s _
    rfl
  | cons e es ih =>
    intro s h
    rw [List.foldl_cons, ih _ (fun e' he' => h e' (List.mem_cons_of_mem _ he')),
      mapStep_keeps_center s e (h e (List.mem_cons_self _ _))]

/-- C17: for a cluster of n ≥ 2 members `onClusterClick` sets the map centre to the pair of
`reduce` sums divided by n, which for members with finite coordinates is (sum of lat / n,
sum of lng / n), the arithmetic mean coordinate; for a null, empty or single-member cluster
it returns the state unchanged. -/
theorem onClusterClick_centers_on_mean (s : MapState) (c : List LiveVehicle)
    (lats lngs : List Rat) (hn : 2 ≤ c.length)
    (hlat : c.map (fun p => p.lat) = lats.map some)
    (hlng : c.map (fun p => p.lng) = lngs.map some) :
    (onClusterClick (some c) s).mapCenter
        = (some (lats.sum / c.length), some (lngs.sum / c.length))
      ∧ (onClusterClick (some c) s).mapCenter = (some (mean lats), some (mean lngs))
      ∧ onClusterClick none s = s
      ∧ (∀ c' : List LiveVehicle, c'.length ≤ 1 → onClusterClick (some c') s = s) := by
  have h1 := foldl_jsAdd_some (fun p => p.lat) c lats 0 hlat
  have h2 := foldl_jsAdd_some (fun p => p.lng) c lngs 0 hlng
  have hlen1 : lats.length = c.length := by
    have := congrArg List.length hlat
    simpa using this.symm
  have hlen2 : lngs.length = c.length := by
    have := congrArg List.length hlng
    simpa using this.symm
  have hc : (onClusterClick (some c) s).mapCenter
      = (some (lats.sum / c.length), some (lngs.sum / c.length)) := by
    simp only [onClusterClick, if_neg (by omega : ¬ c.length ≤ 1), h1, h2, jsDivLength,
      Option.map_some', zero_add]
  refine ⟨hc, ?_, rfl, ?_⟩
  · rw [hc, mean, mean, hlen1, hlen2]
  · intro c' hc'
    simp [onClusterClick, hc']

theorem onClusterClick_centers_on_mean_witness :
    (onClusterClick (some FALLBACK_CARS) MapState.init).mapCenter
      = (some (mean [10792 / 1000, 10791 / 1000, 10789 / 1000]),
         some (mean [78703 / 1000, 78706 / 1000, 78705 / 1000])) :=
  (onClusterClick_centers_on_mean MapState.init FALLBACK_CARS
    [10792 / 1000, 10791 / 1000, 10789 / 1000] [78703 / 1000, 78706 / 1000, 78705 / 1000]
    (by decide) rfl rfl).2.1

/-- C18, as stated, fails: a pickup on the equator (lat = 0) is non-null, yet after the
pickup location has changed to it the map centre is still the default one and not
[0, 78.7]. -/
theorem pickup_with_zero_coordinate_keeps_center :
    (mapStep MapState.init (MapEvent.pickupChanged (some equatorPickup))).mapCenter
        = MapState.init.mapCenter
      ∧ (mapStep MapState.init (MapEvent.pickupChanged (some equatorPickup))).mapCenter
        ≠ (some equatorPickup.lat, some equatorPickup.lng) := by
  have h : (mapStep MapState.init (MapEvent.pickupChanged (some equatorPickup))).mapCenter
      = MapState.init.mapCenter := rfl
  refine ⟨h, ?_⟩
  rw [h]
  simp [MapState.init, equatorPickup]

/-- C18, amended: for every non-null pickup location whose lat and lng are both non-zero,
whenever the pickup location changes to it the map centre becomes [lat, lng], and it stays
so over any later events other than a pickup change or a cluster click; likewise a click on
a cluster of at least two members determines the centre until the next such event. -/
theorem last_recenter_determines_center (s : MapState) (l : Location) (es : List MapEvent)
    (hlat : l.lat ≠ 0) (hlng : l.lng ≠ 0) (hes : ∀ e ∈ es, e.recenters = false) :
    (mapStep s (MapEvent.pickupChanged (some l))).mapCenter = (some l.lat, some l.lng)
      ∧ (es.foldl mapStep (mapStep s (MapEvent.pickupChanged (some l)))).mapCenter
          = (some l.lat, some l.lng)
      ∧ (∀ c : List LiveVehicle, 2 ≤ c.length →
          (es.foldl mapStep (mapStep s (MapEvent.clusterClick (some c)))).mapCenter
            = (jsDivLength (c.foldl (fun acc p => jsAdd acc p.lat) (some 0)) c.length,
               jsDivLength (c.foldl (fun acc p => jsAdd acc p.lng) (some 0)) c.length)) := by
  have h1 : (mapStep s (MapEvent.pickupChanged (some l))).mapCenter
      = (some l.lat, some l.lng) := by
    simp [mapStep, centerOnPickup, hlat, hlng]
  refine ⟨h1, ?_, ?_⟩
  · rw [foldl_mapStep_keeps_center es _ hes, h1]
  · intro c hc
    rw [foldl_mapStep_keeps_center es _ hes]
    simp only [mapStep, onClusterClick, if_neg (by omega : ¬ c.length ≤ 1)]

theorem last_recenter_determines_center_witness :
    (List.foldl mapStep (mapStep MapState.init (MapEvent.pickupChanged (some parkSt)))
        [MapEvent.fetchStarted, MapEvent.mapClick]).mapCenter
      = (some parkSt.lat, some parkSt.lng) :=
  (last_recenter_determines_center MapState.init parkSt
    [MapEvent.fetchStarted, MapEvent.mapClick]
    (by simp [parkSt]) (by simp [parkSt]) (by simp [MapEvent.recenters])).2.1

/-! ## Theorems: vehicle feed -/

theorem normalizeFrom_records (records : List FeedRecord) :
    ∀ i, normalizeFrom i (records.map some)
      = Except.ok ((records.enumFrom i).map (fun ic => normalize ic.2 ic.1)) := by
  induction records with
  | nil =>
    intro i
    rfl
  | cons c rest ih =>
    intro i
    simp only [List.map_cons, normalizeFrom, ih (i + 1), List.enumFrom_cons]

theorem fetchCars_of_error (o : FeedOutcome) (s : MapState) (e : JsError)
    (h : fetchCarsTry o = Except.error e) :
    (fetchCars o s).cars = FALLBACK_CARS ∧ (fetchCars o s).error = some (errorText e)
      ∧ (fetchCars o s).loading = false := by
  simp [fetchCars, fetchCarsSettle, h]

theorem errorText_ne_empty (e : JsError) (h : e.name ≠ "" ∨ e.message ≠ "") :
    errorText e ≠ "" := by
  unfold errorText errorToString
  by_cases hm : e.message = ""
  · rcases h with h | h
    · simp [hm, h]
    · exact absurd hm h
  · simp [hm]

theorem http_message_ne_empty (x : String) : "HTTP " ++ x ≠ "" := by
  intro h
  have hl := congrArg String.length h
  simp only [String.length_append] at hl
  have h5 : "HTTP ".length = 5 := by decide
  have h0 : "".length = 0 := by decide
  omega

/-- C19: a rejected fetch, a non-OK status, an unparsable body, an empty array and a
non-array value each end `fetchCars` with cars = `FALLBACK_CARS` (three vehicles), error
non-null and loading false, and the offline indicator is rendered (for a thrown error, when
its name or its message is not empty); a non-empty array of records ends it with cars = the
normalized records, error null, no indicator and loading false.  The cars held before do
not matter. -/
theorem fetchCars_outcomes (s : MapState) :
    FALLBACK_CARS.length = 3
      ∧ (∀ e, (fetchCars (FeedOutcome.fetchRejected e) s).cars = FALLBACK_CARS
          ∧ (fetchCars (FeedOutcome.fetchRejected e) s).error = some (errorText e)
          ∧ (fetchCars (FeedOutcome.fetchRejected e) s).loading = false
          ∧ (e.name ≠ "" ∨ e.message ≠ "" →
              offlineIndicator (fetchCars (FeedOutcome.fetchRejected e) s) = true))
      ∧ (∀ status body, (fetchCars (FeedOutcome.response false status body) s).cars
            = FALLBACK_CARS
          ∧ (fetchCars (FeedOutcome.response false status body) s).error.isSome = true
          ∧ (fetchCars (FeedOutcome.response false status body) s).loading = false
          ∧ offlineIndicator (fetchCars (FeedOutcome.response false status body) s) = true)
      ∧ (∀ status e, (fetchCars (FeedOutcome.response true status (Except.error e)) s).cars
            = FALLBACK_CARS
          ∧ (fetchCars (FeedOutcome.response true status (Except.error e)) s).error
            = some (errorText e)
          ∧ (fetchCars (FeedOutcome.response true status (Except.error e)) s).loading = false
          ∧ (e.name ≠ "" ∨ e.message ≠ "" → offlineIndicator
              (fetchCars (FeedOutcome.response true status (Except.error e)) s) = true))
      ∧ (∀ status data, data = FeedBody.array [] ∨ data = FeedBody.notArray →
          (fetchCars (FeedOutcome.response true status (Except.ok data)) s).cars
            = FALLBACK_CARS
          ∧ (fetchCars (FeedOutcome.response true status (Except.ok data)) s).error
            = some "no-cars"
          ∧ (fetchCars (FeedOutcome.response true status (Except.ok data)) s).loading = false
          ∧ offlineIndicator
              (fetchCars (FeedOutcome.response true status (Except.ok data)) s) = true)
      ∧ (∀ status (records : List FeedRecord), records ≠ [] →
          (fetchCars (FeedOutcome.response true status
              (Except.ok (FeedBody.array (records.map some)))) s).cars
            = records.enum.map (fun ic => normalize ic.2 ic.1)
          ∧ (fetchCars (FeedOutcome.response true status
              (Except.ok (FeedBody.array (records.map some)))) s).error = none
          ∧ (fetchCars (FeedOutcome.response true status
              (Except.ok (FeedBody.array (records.map some)))) s).loading = false
          ∧ offlineIndicator (fetchCars (FeedOutcome.response true status
              (Except.ok (FeedBody.array (records.map some)))) s) = false) := by
  refine ⟨rfl, ?_, ?_, ?_, ?_, ?_⟩
  · intro e
    obtain ⟨h1, h2, h3⟩ := fetchCars_of_error (FeedOutcome.fetchRejected e) s e rfl
    refine ⟨h1, h2, h3, ?_⟩
    intro hne
    simp [offlineIndicator, h2, errorText_ne_empty e hne]
  · intro status body
    obtain ⟨h1, h2, h3⟩ := fetchCars_of_error (FeedOutcome.response false status body) s
      { name := "Error", message := "HTTP " ++ String.mk (toStringRadix 10 status) }
      (by simp [fetchCarsTry])
    refine ⟨h1, by simp [h2], h3, ?_⟩
    simp [offlineIndicator, h2, errorText, http_message_ne_empty]
  · intro status e
    obtain ⟨h1, h2, h3⟩ := fetchCars_of_error
      (FeedOutcome.response true status (Except.error e)) s e (by simp [fetchCarsTry])
    refine ⟨h1, h2, h3, ?_⟩
    intro hne
    simp [offlineIndicator, h2, errorText_ne_empty e hne]
  · intro status data hdata
    have htry : fetchCarsTry (FeedOutcome.response true status (Except.ok data))
        = Except.error { name := "Error", message := "no-cars" } := by
      rcases hdata with h | h <;> subst h <;> simp [fetchCarsTry, normalizeFrom]
    obtain ⟨h1, h2, h3⟩ := fetchCars_of_error _ s _ htry
    have h2' : (fetchCars (FeedOutcome.response true status (Except.ok data)) s).error
        = some "no-cars" := by
      rw [h2]
      rfl
    refine ⟨h1, h2', h3, ?_⟩
    rw [offlineIndicator, h2']
    decide
  · intro status records hne
    have hlen : ¬ ((records.enumFrom 0).map (fun ic => normalize ic.2 ic.1)).length = 0 := by
      simp only [List.length_map, List.enumFrom_length]
      intro h0
      exact hne (List.length_eq_zero.mp h0)
    have htry : fetchCarsTry (FeedOutcome.response true status
          (Except.ok (FeedBody.array (records.map some))))
        = Except.ok (records.enum.map (fun ic => normalize ic.2 ic.1)) := by
      simp only [fetchCarsTry, Bool.not_true, Bool.false_eq_true, if_false,
        normalizeFrom_records, if_neg hlen]
      rfl
    simp [fetchCars, fetchCarsSettle, fetchCarsStart, htry, offlineIndicator]

theorem fetchCars_outcomes_witness :
    (fetchCars (FeedOutcome.response true 200
        (Except.ok (FeedBody.array ([bareSuv].map some)))) MapState.init).cars
      = [bareSuv].enum.map (fun ic => normalize ic.2 ic.1) :=
  ((fetchCars_outcomes MapState.init).2.2.2.2.2 200 [bareSuv] (by simp)).1

/-- C20: normalization of the feed record `c` at index `i`: id is `c.id` when present, else
`car_` followed by the decimal index; type is `c.type` when present, else `economy`; driver
is `c.driver`, else `c.name`, else `Driver`; color is `c.color` when present, else the
colour of the normalized type: `#F59E0B` for premium, `#EF4444` for suv, `#8B5CF6`
otherwise. -/
theorem normalize_defaults (c : FeedRecord) (i : Nat) :
    (∀ x, c.id = some x → (normalize c i).id = x)
      ∧ (c.id = none → (normalize c i).id = "car_" ++ String.mk (toStringRadix 10 i))
      ∧ (∀ t, c.type = some t → (normalize c i).type = t)
      ∧ (c.type = none → (normalize c i).type = "economy")
      ∧ (∀ d, c.driver = some d → (normalize c i).driver = d)
      ∧ (∀ n, c.driver = none → c.name = some n → (normalize c i).driver = n)
      ∧ (c.driver = none → c.name = none → (normalize c i).driver = "Driver")
      ∧ (∀ k, c.color = some k → (normalize c i).color = k)
      ∧ (c.color = none → (normalize c i).color = colorForType (normalize c i).type)
      ∧ colorForType "premium" = "#F59E0B" ∧ colorForType "suv" = "#EF4444"
      ∧ (∀ t, t ≠ "premium" → t ≠ "suv" → colorForType t = "#8B5CF6") := by
  refine ⟨?_, ?_, ?_, ?_, ?_, ?_, ?_, ?_, ?_, by decide, by decide, ?_⟩
  · intro x h
    simp [normalize, h]
  · intro h
    simp [normalize, h]
  · intro t h
    simp [normalize, h]
  · intro h
    simp [normalize, h]
  · intro d h
    simp [normalize, h]
  · intro n h1 h2
    simp [normalize, h1, h2]
  · intro h1 h2
    simp [normalize, h1, h2]
  · intro k h
    simp [normalize, h]
  · intro h
    cases ht : c.type with
    | none => simp [normalize, h, ht, colorForType]
    | some t =>
      by_cases h1 : t = "premium"
      · simp [normalize, h, ht, colorForType, h1]
      · by_cases h2 : t = "suv"
        · simp [normalize, h, ht, colorForType, h2]
        · simp [normalize, h, ht, colorForType, h1, h2]
  · intro t h1 h2
    simp [colorForType, h1, h2]

theorem normalize_defaults_witness :
    (normalize bareSuv 2).id = "car_" ++ String.mk (toStringRadix 10 2)
      ∧ (normalize bareSuv 2).type = "suv" ∧ (normalize bareSuv 2).driver = "Driver"
      ∧ (normalize bareSuv 2).color = colorForType (normalize bareSuv 2).type :=
  ⟨(normalize_defaults bareSuv 2).2.1 rfl,
    (normalize_defaults bareSuv 2).2.2.1 "suv" rfl,
    (normalize_defaults bareSuv 2).2.2.2.2.2.2.1 rfl rfl,
    (normalize_defaults bareSuv 2).2.2.2.2.2.2.2.2.1 rfl⟩

/-! ## Theorems: clusters partition the input -/

section ClusteringPartition

variable {α : Type} {D : Type} [LE D] [DecidableRel ((· ≤ ·) : D → D → Prop)]

theorem greedyClusters_ne_nil (dist : α → α → D) (T : D) (l : List α) :
    ∀ c ∈ greedyClusters dist T l, c ≠ [] := by
  induction l using greedyClusters.induct dist T with
  | case1 =>
    intro c hc
    simp [greedyClusters_nil] at hc
  | case2 seed rest ih =>
    intro c hc
    rw [greedyClusters_cons, List.mem_cons] at hc
    rcases hc with hc | hc
    · rw [hc]
      exact List.cons_ne_nil _ _
    · exact ih c hc

theorem greedyClusters_flatten_perm (dist : α → α → D) (T : D) (l : List α) :
    (greedyClusters dist T l).flatten.Perm l := by
  induction l using greedyClusters.induct dist T with
  | case1 => simp [greedyClusters_nil]
  | case2 seed rest ih =>
    rw [greedyClusters_cons, List.flatten_cons, List.cons_append]
    apply List.Perm.cons
    exact (List.Perm.append_left _ ih).trans (List.filter_append_perm _ rest)

theorem greedyClusters_mem (dist : α → α → D) (T : D) (l : List α) (c : List α) (x : α)
    (hc : c ∈ greedyClusters dist T l) (hx : x ∈ c) : x ∈ l :=
  (greedyClusters_flatten_perm dist T l).mem_iff.mp (List.mem_flatten.mpr ⟨c, hc, hx⟩)

theorem greedyClusters_map {β : Type} (dist : α → α → D) (T : D) (f : β → α) (l : List β) :
    greedyClusters dist T (l.map f)
      = (greedyClusters (fun a b => dist (f a) (f b)) T l).map (List.map f) := by
  induction l using greedyClusters.induct (fun a b => dist (f a) (f b)) T with
  | case1 => simp [greedyClusters_nil]
  | case2 seed rest ih =>
    rw [List.map_cons, greedyClusters_cons, greedyClusters_cons, List.map_cons,
      List.map_cons, List.filter_map, List.filter_map, ← ih]
    rfl

theorem greedyClusters_seeds_not_within (dist : α → α → D) (T : D) (l : List α) :
    (greedyClusters dist T l).Pairwise
      (fun c1 c2 => ∀ seed, c1.head? = some seed → ∀ x ∈ c2, ¬ dist seed x ≤ T) := by
  induction l using greedyClusters.induct dist T with
  | case1 => simp [greedyClusters_nil]
  | case2 seed rest ih =>
    rw [greedyClusters_cons, List.pairwise_cons]
    refine ⟨?_, ih⟩
    intro c2 hc2 s hs x hx
    simp only [List.head?_cons, Option.some.injEq] at hs
    subst hs
    have hmem := greedyClusters_mem dist T _ c2 x hc2 hx
    have := (List.mem_filter.mp hmem).2
    simpa using this

theorem greedyClusters_singletons (dist : α → α → D) (T : D) (l : List α)
    (h : l.Pairwise (fun a b => ¬ dist a b ≤ T)) :
    greedyClusters dist T l = l.map (fun p => [p]) := by
  induction l with
  | nil => simp [greedyClusters_nil]
  | cons seed rest ih =>
    rw [List.pairwise_cons] at h
    have h1 : rest.filter (fun p => decide (dist seed p ≤ T)) = [] := by
      rw [List.filter_eq_nil_iff]
      intro x hx
      simpa using h.1 x hx
    have h2 : rest.filter (fun p => !decide (dist seed p ≤ T)) = rest := by
      rw [List.filter_eq_self]
      intro x hx
      simpa using h.1 x hx
    rw [greedyClusters_cons, h1, h2, ih h.2, List.map_cons]

theorem clusterNearby_seed_pairs (dist : α → α → D) (T : D) (ps : List α) :
    ∃ cs, clusterNearby dist (some ps) T = Except.ok cs
      ∧ cs.Pairwise
          (fun c1 c2 => ∀ s1 s2, c1.head? = some s1 → c2.head? = some s2 → ¬ dist s1 s2 ≤ T)
      ∧ cs.Pairwise (fun c1 c2 => ∀ s1, c1.head? = some s1 → ∀ x ∈ c2, ¬ dist s1 x ≤ T) := by
  refine ⟨greedyClusters dist T ps, clusterNearby_eq_greedy dist T ps, ?_,
    greedyClusters_seeds_not_within dist T ps⟩
  refine (greedyClusters_seeds_not_within dist T ps).imp ?_
  intro c1 c2 h s1 s2 h1 h2
  exact h s1 h1 s2 (List.mem_of_mem_head? h2)

end ClusteringPartition

section ClusteringPartitionClaims

variable {α : Type} {D : Type} [LinearOrder D]

/-- C24: for a list of points of any length and any threshold `clusterNearby` returns
clusters that are all non-empty and partition the input: their concatenation is a
permutation of the input and their sizes sum to its length; run on the points tagged with
their positions it returns the same clusters with every position in exactly one of
them. -/
theorem clusterNearby_partitions_input (dist : α → α → D) (T : D) (ps : List α) :
    ∃ cs ics, clusterNearby dist (some ps) T = Except.ok cs
      ∧ (∀ c ∈ cs, c ≠ [])
      ∧ cs.flatten.Perm ps
      ∧ (cs.map List.length).sum = ps.length
      ∧ clusterNearby (fun a b => dist a.2 b.2) (some ps.enum) T = Except.ok ics
      ∧ ics.map (List.map Prod.snd) = cs
      ∧ ics.flatten.Perm ps.enum
      ∧ (ics.flatten.map Prod.fst).Nodup
      ∧ (∀ i, i < ps.length → ∃ c ∈ ics, i ∈ c.map Prod.fst) := by
  have hperm := greedyClusters_flatten_perm dist T ps
  have hiperm := greedyClusters_flatten_perm (fun (a b : Nat × α) => dist a.2 b.2) T ps.enum
  refine ⟨greedyClusters dist T ps,
    greedyClusters (fun (a b : Nat × α) => dist a.2 b.2) T ps.enum,
    clusterNearby_eq_greedy dist T ps, greedyClusters_ne_nil dist T ps, hperm, ?_,
    clusterNearby_eq_greedy _ T ps.enum, ?_, hiperm, ?_, ?_⟩
  · rw [← List.length_flatten]
    exact hperm.length_eq
  · rw [← greedyClusters_map dist T Prod.snd ps.enum, List.enum_map_snd]
  · have hnd : (ps.enum.map Prod.fst).Nodup := by
      rw [List.enum_map_fst]
      exact List.nodup_range _
    exact ((hiperm.map Prod.fst).nodup_iff).mpr hnd
  · intro i hi
    have hmem : (i, ps[i]) ∈ ps.enum := by
      rw [List.mk_mem_enum_iff_getElem?]
      exact List.getElem?_eq_getElem hi
    obtain ⟨c, hc, hic⟩ := List.mem_flatten.mp (hiperm.mem_iff.mpr hmem)
    exact ⟨c, hc, List.mem_map.mpr ⟨(i, ps[i]), hic, rfl⟩⟩

end ClusteringPartitionClaims

theorem carClusters_singletons (haversine : LiveVehicle → LiveVehicle → JsNumber)
    (cars : List LiveVehicle)
    (h : cars.Pairwise (fun a b => ¬ haversine a b ≤ JsNumber.num 150)) :
    carClusters haversine true cars = carClusters haversine false cars := by
  simp only [carClusters, Bool.not_true, Bool.false_eq_true, if_false, Bool.not_false,
    if_true]
  rw [clusterNearby_eq_greedy, greedyClusters_singletons haversine (JsNumber.num 150) cars h]

theorem JsNumber.not_le_num (x y : Rat) :
    ¬ JsNumber.num x ≤ JsNumber.num y ↔ JsNumber.num y < JsNumber.num x := by
  show ¬ x ≤ y ↔ y < x
  exact not_le

theorem JsNumber.nan_compares_false (y : JsNumber) :
    ¬ JsNumber.nan ≤ y ∧ ¬ y ≤ JsNumber.nan ∧ ¬ JsNumber.nan < y ∧ ¬ y < JsNumber.nan := by
  cases y <;> exact ⟨fun h => h, fun h => h, fun h => h, fun h => h⟩

theorem haversine_nan_lat (meters : Rat → Rat → Rat → Rat → Rat) (a b : LiveVehicle)
    (h : b.lat = none) : haversine meters a b = JsNumber.nan := by
  unfold haversine
  rw [h]
  cases a.lat <;> cases a.lng <;> rfl

/-- C25, as stated, fails: a feed record without `lat` is normalized to a vehicle whose
latitude is NaN; its distance from the vehicle before it is NaN, the test `<= 150` is false
and it seeds a cluster of its own, yet it is not more than 150 from the earlier seed, since
`150 < NaN` is false as well. -/
theorem clusterNearby_nan_seed_not_apart :
    (fetchCars noLatFeed MapState.init).cars = nanCars
      ∧ nanCars = [normalize fullRecord 0, normalize noLatRecord 1]
      ∧ (normalize noLatRecord 1).lat = none
      ∧ (∀ meters, haversine meters (normalize fullRecord 0) (normalize noLatRecord 1)
            = JsNumber.nan)
      ∧ (∀ meters, carClusters (haversine meters) true nanCars
            = Except.ok [[normalize fullRecord 0], [normalize noLatRecord 1]])
      ∧ (∀ meters, ¬ JsNumber.num 150
            < haversine meters (normalize fullRecord 0) (normalize noLatRecord 1))
      ∧ (∀ meters, ¬ [[normalize fullRecord 0], [normalize noLatRecord 1]].Pairwise
            (fun c1 c2 => ∀ s1 s2, c1.head? = some s1 → c2.head? = some s2 →
              JsNumber.num 150 < haversine meters s1 s2)) := by
  have hnan : ∀ meters, haversine meters (normalize fullRecord 0) (normalize noLatRecord 1)
      = JsNumber.nan := fun meters => haversine_nan_lat meters _ _ rfl
  refine ⟨rfl, rfl, rfl, hnan, ?_, ?_, ?_⟩
  · intro meters
    have hp : nanCars.Pairwise
        (fun a b => ¬ haversine meters a b ≤ JsNumber.num 150) := by
      simp only [nanCars, List.pairwise_cons, List.mem_singleton, forall_eq,
        List.not_mem_nil, false_implies, implies_true, List.Pairwise.nil, and_true]
      rw [hnan meters]
      exact (JsNumber.nan_compares_false _).1
    rw [carClusters_singletons (haversine meters) nanCars hp]
    rfl
  · intro meters
    rw [hnan meters]
    exact (JsNumber.nan_compares_false _).2.2.2
  · intro meters h
    rw [List.pairwise_cons] at h
    have h1 := h.1 [normalize noLatRecord 1] (List.mem_singleton.mpr rfl)
      (normalize fullRecord 0) (normalize noLatRecord 1) rfl rfl
    rw [hnan meters] at h1
    exact (JsNumber.nan_compares_false _).2.2.2 h1

/-- C25, amended: in the result of `clusterNearby` every member of a later cluster, its seed
in particular, is not within the threshold of the seed of any earlier cluster, measured from
the earlier seed: the test `dist <= T` is false.  For distances in a linear order, and for
two numbers that are not NaN, that is more than the threshold apart.  Hence when no later
point is within the threshold of an earlier one the result is the list of singletons in
input order, which is what `carClusters` returns with clustering disabled. -/
theorem clusterNearby_seeds_not_within {α D : Type} [LE D]
    [DecidableRel ((· ≤ ·) : D → D → Prop)] (dist : α → α → D) (T : D) (ps : List α) :
    (∃ cs, clusterNearby dist (some ps) T = Except.ok cs
      ∧ cs.Pairwise
          (fun c1 c2 => ∀ s1 s2, c1.head? = some s1 → c2.head? = some s2 → ¬ dist s1 s2 ≤ T)
      ∧ cs.Pairwise (fun c1 c2 => ∀ s1, c1.head? = some s1 → ∀ x ∈ c2, ¬ dist s1 x ≤ T))
      ∧ (ps.Pairwise (fun a b => ¬ dist a b ≤ T) →
          clusterNearby dist (some ps) T = Except.ok (ps.map (fun p => [p])))
      ∧ (∀ (E : Type) [LinearOrder E] (d : α → α → E) (U : E),
          ∃ cs, clusterNearby d (some ps) U = Except.ok cs
            ∧ cs.Pairwise
                (fun c1 c2 => ∀ s1 s2, c1.head? = some s1 → c2.head? = some s2 → U < d s1 s2)
            ∧ cs.Pairwise (fun c1 c2 => ∀ s1, c1.head? = some s1 → ∀ x ∈ c2, U < d s1 x))
      ∧ (∀ x y : Rat, ¬ JsNumber.num x ≤ JsNumber.num y ↔ JsNumber.num y < JsNumber.num x)
      ∧ (∀ (haversine : LiveVehicle → LiveVehicle → JsNumber) (cars : List LiveVehicle),
          cars.Pairwise (fun a b => ¬ haversine a b ≤ JsNumber.num 150) →
          carClusters haversine true cars = carClusters haversine false cars) := by
  refine ⟨clusterNearby_seed_pairs dist T ps, ?_, ?_, JsNumber.not_le_num,
    carClusters_singletons⟩
  · intro h
    rw [clusterNearby_eq_greedy, greedyClusters_singletons dist T ps h]
  · intro E _ d U
    obtain ⟨cs, h1, h2, h3⟩ := clusterNearby_seed_pairs d U ps
    refine ⟨cs, h1, h2.imp ?_, h3.imp ?_⟩
    · intro c1 c2 h s1 s2 e1 e2
      exact not_le.mp (h s1 s2 e1 e2)
    · intro c1 c2 h s1 e1 x hx
      exact not_le.mp (h s1 e1 x hx)

theorem clusterNearby_seeds_not_within_witness :
    clusterNearby lineDist (some [0, 5, 10]) 1 = Except.ok ([0, 5, 10].map (fun p => [p])) :=
  (clusterNearby_seeds_not_within lineDist 1 [0, 5, 10]).2.1 (by decide)

/-- C26, as stated, fails: on a null or undefined `points` the guard `!points` holds and the
same statement calls `points.map`, which throws; no list of clusters is returned, the empty
one included. -/
theorem clusterNearby_null_throws :
    clusterNearby lineDist none 1
        = Except.error "TypeError: Cannot read properties of null (reading 'map')"
      ∧ clusterNearby lineDist none 1 ≠ Except.ok []
      ∧ (∀ cs, clusterNearby lineDist none 1 ≠ Except.ok cs) := by
  refine ⟨rfl, ?_, ?_⟩
  · intro h
    cases h
  · intro cs h
    cases h

/-- C26, amended: `clusterNearby` is total on arrays.  For every array of points, the empty
one included, every distance function and every threshold it returns a list of clusters
without raising an error, the empty list of clusters when `points` is empty; `carClusters`,
its only caller, passes an array and returns a list of clusters as well. -/
theorem clusterNearby_total_on_arrays {α D : Type} [LE D]
    [DecidableRel ((· ≤ ·) : D → D → Prop)] (dist : α → α → D) (T : D) (ps : List α) :
    (∃ cs, clusterNearby dist (some ps) T = Except.ok cs)
      ∧ clusterNearby dist (some ([] : List α)) T = Except.ok []
      ∧ (∀ (haversine : LiveVehicle → LiveVehicle → JsNumber) (enableClustering : Bool)
          (cars : List LiveVehicle), ∃ cs, carClusters haversine enableClustering cars
            = Except.ok cs) := by
  refine ⟨⟨_, clusterNearby_eq_greedy dist T ps⟩, rfl, ?_⟩
  intro haversine enableClustering cars
  cases enableClustering with
  | false => exact ⟨_, rfl⟩
  | true => exact ⟨_, clusterNearby_eq_greedy haversine (JsNumber.num 150) cars⟩

/-! ## Theorems: car catalogue -/

theorem handleSelect_focusIndex (p : CarTypesProps) (r : CarTypes) (car : VehicleOption)
    (s : CarTypes) : (handleSelect p r car s).focusIndex = s.focusIndex := by
  unfold handleSelect
  split_ifs <;> rfl

theorem handleSelect_busy (p : CarTypesProps) (r : CarTypes) (car : VehicleOption)
    (s : CarTypes) (h : isLoadingId r.loadingId = true) : handleSelect p r car s = s := by
  unfold handleSelect
  split_ifs <;> simp_all

/-- C21: when pickup or drop is null, `handleSelect` returns the state it was given for every
vehicle, whether reached by a click or by Enter or Space: no state cell changes, no
selection timeout is started and `onCarSelect` is not invoked. -/
theorem handleSelect_disabled_noop (p : CarTypesProps) (r s : CarTypes)
    (car : VehicleOption) (idx : Nat)
    (h : p.pickupLocation = none ∨ p.dropLocation = none) :
    handleSelect p r car s = s
      ∧ cardClick p r car s = s
      ∧ handleKeyDown p r "Enter" car s = s
      ∧ handleKeyDown p r " " car s = s
      ∧ (carTypesStep ⟨p, s⟩ (CarTypesEvent.click idx)).state = s
      ∧ (carTypesStep ⟨p, s⟩ (CarTypesEvent.keyDown "Enter" idx)).state = s
      ∧ (carTypesStep ⟨p, s⟩ (CarTypesEvent.keyDown " " idx)).state = s := by
  have he : isSelectionEnabled p = false := by
    rcases h with h | h <;> simp [isSelectionEnabled, h]
  have h1 : ∀ (r' s' : CarTypes) (c : VehicleOption), handleSelect p r' c s' = s' := by
    intro r' s' c
    simp [handleSelect, he]
  have h2 : ∀ (c : VehicleOption), handleKeyDown p s "Enter" c s = s := by
    intro c
    simp [handleKeyDown, h1]
  have h3 : ∀ (c : VehicleOption), handleKeyDown p s " " c s = s := by
    intro c
    simp [handleKeyDown, h1]
  refine ⟨h1 r s car, by simp [cardClick, he], by simp [handleKeyDown, h1],
    by simp [handleKeyDown, h1], ?_, ?_, ?_⟩
  · simp only [carTypesStep]
    cases (carTypes p)[idx]? <;> simp [cardClick, he]
  · simp only [carTypesStep]
    cases (carTypes p)[idx]? <;> simp [h2]
  · simp only [carTypesStep]
    cases (carTypes p)[idx]? <;> simp [h3]

theorem handleSelect_disabled_noop_witness :
    handleSelect disabledCarProps CarTypes.init economy CarTypes.init = CarTypes.init :=
  (handleSelect_disabled_noop disabledCarProps CarTypes.init CarTypes.init economy 0
    (Or.inl rfl)).1

/-- C22, as stated, fails: with an externally supplied list whose first vehicle has the
empty string as id, a click on it sets `loadingId` to a falsy value, a click on the second
vehicle starts a second timeout, and `onCarSelect` is invoked for both. -/
theorem select_with_empty_id_not_exclusive :
    isSelectionEnabled externalCarProps = true
      ∧ (carTypesStep (carTypesMount externalCarProps)
          (CarTypesEvent.click 0)).state.timers.map (fun t => t.car.id) = [""]
      ∧ (carTypesStep (carTypesStep (carTypesMount externalCarProps)
          (CarTypesEvent.click 0)) (CarTypesEvent.click 1)).state.timers.map
            (fun t => t.car.id) = ["", "premium"]
      ∧ (carTypesStep (carTypesStep (carTypesStep (carTypesStep
          (carTypesMount externalCarProps) (CarTypesEvent.click 0)) (CarTypesEvent.click 1))
            CarTypesEvent.selectTimeout) CarTypesEvent.selectTimeout).state.selected.map
              (fun c => c.id) = ["", "premium"] := by
  decide

/-- C22, amended: with pickup and drop both set, for all vehicles a and b where the id of a
is not empty: once `handleSelect(a)` has started a selection, `handleSelect(b)`, by click or
by Enter, is a no-op for as long as the delay has not elapsed, however often it is tried, so
one timeout is pending; its expiry invokes `onCarSelect` once, with a, and clears
`loadingId`. -/
theorem select_in_flight_blocks_others (p : CarTypesProps) (a : VehicleOption)
    (s : CarTypes) (f : VehicleOption → Except String Unit)
    (hen : isSelectionEnabled p = true) (hid : a.id ≠ "")
    (hfree : isLoadingId s.loadingId = false) (ht : s.timers = [])
    (hcb : p.onCarSelect = some f) :
    (handleSelect p s a s).timers.length = 1
      ∧ (handleSelect p s a s).loadingId = some a.id
      ∧ (∀ b, handleSelect p (handleSelect p s a s) b (handleSelect p s a s)
            = handleSelect p s a s)
      ∧ (∀ b, cardClick p (handleSelect p s a s) b (handleSelect p s a s)
            = handleSelect p s a s)
      ∧ (∀ b, handleKeyDown p (handleSelect p s a s) "Enter" b (handleSelect p s a s)
            = handleSelect p s a s)
      ∧ (∀ bs : List VehicleOption,
          bs.foldl (fun acc b => handleSelect p acc b acc) (handleSelect p s a s)
            = handleSelect p s a s)
      ∧ (carTypesStep ⟨p, handleSelect p s a s⟩ CarTypesEvent.selectTimeout).state.selected
          = s.selected ++ [a]
      ∧ (carTypesStep ⟨p, handleSelect p s a s⟩ CarTypesEvent.selectTimeout).state.timers = []
      ∧ (carTypesStep ⟨p, handleSelect p s a s⟩ CarTypesEvent.selectTimeout).state.loadingId
          = none := by
  have hs1 : handleSelect p s a s
      = { s with loadingId := some a.id,
                 timers := [{ car := a, onCarSelect := some f }] } := by
    simp [handleSelect, hen, hfree, ht, hcb]
  have hbusy : isLoadingId (handleSelect p s a s).loadingId = true := by
    rw [hs1]
    simp [isLoadingId, hid]
  have hnoop : ∀ b, handleSelect p (handleSelect p s a s) b (handleSelect p s a s)
      = handleSelect p s a s := fun b => handleSelect_busy p _ b _ hbusy
  refine ⟨by rw [hs1]; rfl, by rw [hs1], hnoop, ?_, ?_, ?_, ?_, ?_, ?_⟩
  · intro b
    simp [cardClick, hen, hnoop]
  · intro b
    simp [handleKeyDown, hnoop]
  · intro bs
    induction bs with
    | nil => rfl
    | cons b bs ih => rw [List.foldl_cons, hnoop b, ih]
  · rw [hs1]
    cases hf : f a <;> simp [carTypesStep, selectTimeoutFire, hf]
  · rw [hs1]
    cases hf : f a <;> simp [carTypesStep, selectTimeoutFire, hf]
  · rw [hs1]
    cases hf : f a <;> simp [carTypesStep, selectTimeoutFire, hf]

theorem select_in_flight_blocks_others_witness :
    handleSelect enabledCarProps
        (handleSelect enabledCarProps CarTypes.init economy CarTypes.init) premium
        (handleSelect enabledCarProps CarTypes.init economy CarTypes.init)
      = handleSelect enabledCarProps CarTypes.init economy CarTypes.init :=
  (select_in_flight_blocks_others enabledCarProps economy CarTypes.init
    (fun _ => Except.ok ()) rfl (by decide) rfl rfl rfl).2.2.1 premium

theorem handleKeyDown_focusIndex (p : CarTypesProps) (r : CarTypes) (key : String)
    (car : VehicleOption) (s : CarTypes) :
    (handleKeyDown p r key car s).focusIndex
      = if key = "ArrowRight" ∨ key = "ArrowDown" then
          min (max (s.focusIndex + 1) 0) (((carTypes p).length : Int) - 1)
        else if key = "ArrowLeft" ∨ key = "ArrowUp" then
          min (max (s.focusIndex + (-1)) 0) (((carTypes p).length : Int) - 1)
        else if key = "Home" then 0
        else if key = "End" then ((carTypes p).length : Int) - 1
        else s.focusIndex := by
  unfold handleKeyDown
  by_cases h1 : key = "Enter" ∨ key = " "
  · have h2 : ¬ (key = "ArrowRight" ∨ key = "ArrowDown") := by
      rcases h1 with h | h <;> subst h <;> decide
    have h3 : ¬ (key = "ArrowLeft" ∨ key = "ArrowUp") := by
      rcases h1 with h | h <;> subst h <;> decide
    have h4 : ¬ key = "Home" := by
      rcases h1 with h | h <;> subst h <;> decide
    have h5 : ¬ key = "End" := by
      rcases h1 with h | h <;> subst h <;> decide
    rw [if_pos h1, if_neg h2, if_neg h3, if_neg h4, if_neg h5, handleSelect_focusIndex]
  · rw [if_neg h1]
    split_ifs <;> rfl

/-- C23: for a non-empty option list of length n and a focus index i with 0 ≤ i < n,
`handleKeyDown` sets the focus index to min(i+1, n-1) on ArrowRight and ArrowDown, to
max(i-1, 0) on ArrowLeft and ArrowUp, to 0 on Home, to n-1 on End, and leaves it unchanged
on every other key; the index stays within [0, n-1] and a directional key moves it by at
most one. -/
theorem handleKeyDown_moves_focus (p : CarTypesProps) (r s : CarTypes) (car : VehicleOption)
    (key : String) (hn : 0 < (carTypes p).length) (h0 : 0 ≤ s.focusIndex)
    (h1 : s.focusIndex < (carTypes p).length) :
    (handleKeyDown p r "ArrowRight" car s).focusIndex
        = min (s.focusIndex + 1) (((carTypes p).length : Int) - 1)
      ∧ (handleKeyDown p r "ArrowDown" car s).focusIndex
        = min (s.focusIndex + 1) (((carTypes p).length : Int) - 1)
      ∧ (handleKeyDown p r "ArrowLeft" car s).focusIndex = max (s.focusIndex - 1) 0
      ∧ (handleKeyDown p r "ArrowUp" car s).focusIndex = max (s.focusIndex - 1) 0
      ∧ (handleKeyDown p r "Home" car s).focusIndex = 0
      ∧ (handleKeyDown p r "End" car s).focusIndex = ((carTypes p).length : Int) - 1
      ∧ (key ≠ "ArrowRight" → key ≠ "ArrowDown" → key ≠ "ArrowLeft" → key ≠ "ArrowUp" →
          key ≠ "Home" → key ≠ "End" →
          (handleKeyDown p r key car s).focusIndex = s.focusIndex)
      ∧ 0 ≤ (handleKeyDown p r key car s).focusIndex
      ∧ (handleKeyDown p r key car s).focusIndex ≤ ((carTypes p).length : Int) - 1
      ∧ (key = "ArrowRight" ∨ key = "ArrowDown" ∨ key = "ArrowLeft" ∨ key = "ArrowUp" →
          |(handleKeyDown p r key car s).focusIndex - s.focusIndex| ≤ 1) := by
  have hn' : (0 : Int) < ((carTypes p).length : Int) := by exact_mod_cast hn
  refine ⟨?_, ?_, ?_, ?_, ?_, ?_, ?_, ?_, ?_, ?_⟩
  · rw [handleKeyDown_focusIndex]
    simp only [true_or, if_true]
    rw [max_eq_left (by omega)]
  · rw [handleKeyDown_focusIndex]
    simp only [or_true, if_true]
    rw [max_eq_left (by omega)]
  · rw [handleKeyDown_focusIndex]
    rw [if_neg (by decide), if_pos (by decide)]
    rw [min_eq_left (by omega)]
    rfl
  · rw [handleKeyDown_focusIndex]
    rw [if_neg (by decide), if_pos (by decide)]
    rw [min_eq_left (by omega)]
    rfl
  · rw [handleKeyDown_focusIndex]
    rw [if_neg (by decide), if_neg (by decide), if_pos rfl]
  · rw [handleKeyDown_focusIndex]
    rw [if_neg (by decide), if_neg (by decide), if_neg (by decide), if_pos rfl]
  · intro k1 k2 k3 k4 k5 k6
    rw [handleKeyDown_focusIndex]
    simp [k1, k2, k3, k4, k5, k6]
  · rw [handleKeyDown_focusIndex]
    split_ifs <;> omega
  · rw [handleKeyDown_focusIndex]
    split_ifs <;> omega
  · intro hk
    rw [handleKeyDown_focusIndex]
    rw [abs_le]
    split_ifs with k1 k2 k3 k4
    · omega
    · omega
    · rcases hk with h | h | h | h
      · exact absurd (Or.inl h) k1
      · exact absurd (Or.inr h) k1
      · exact absurd (Or.inl h) k2
      · exact absurd (Or.inr h) k2
    · rcases hk with h | h | h | h
      · exact absurd (Or.inl h) k1
      · exact absurd (Or.inr h) k1
      · exact absurd (Or.inl h) k2
      · exact absurd (Or.inr h) k2
    · omega

theorem handleKeyDown_moves_focus_witness :
    (handleKeyDown enabledCarProps CarTypes.init "ArrowRight" economy CarTypes.init).focusIndex
        = min (CarTypes.init.focusIndex + 1) (((carTypes enabledCarProps).length : Int) - 1)
      ∧ (handleKeyDown enabledCarProps CarTypes.init "End" economy CarTypes.init).focusIndex
        = ((carTypes enabledCarProps).length : Int) - 1 :=
  ⟨(handleKeyDown_moves_focus enabledCarProps CarTypes.init CarTypes.init economy "x"
      (by decide) (by decide) (by decide)).1,
   (handleKeyDown_moves_focus enabledCarProps CarTypes.init CarTypes.init economy "x"
      (by decide) (by decide) (by decide)).2.2.2.2.2.1⟩

theorem reclamp_inRange (n : Nat) (s : CarTypes) (h : 0 ≤ s.focusIndex) :
    focusInRange n (reclamp n s).focusIndex := by
  simp only [focusInRange, reclamp]
  constructor <;> omega

theorem findIndex_bounds (l : List VehicleOption) (id : String) (h : findIndex l id ≥ 0) :
    0 ≤ findIndex l id ∧ findIndex l id ≤ (l.length : Int) - 1 := by
  unfold findIndex at h ⊢
  split_ifs at h ⊢ with hlt
  · omega
  · omega

theorem focusSelected_inRange (p : CarTypesProps) (s : CarTypes)
    (h : focusInRange (carTypes p).length s.focusIndex) :
    focusInRange (carTypes p).length (focusSelected p s).focusIndex := by
  unfold focusSelected
  cases p.selectedCar with
  | none => exact h
  | some sel =>
    simp only []
    split_ifs with hf
    · have hb := findIndex_bounds (carTypes p) sel.id hf
      simp only [focusInRange]
      constructor <;> omega
    · exact h

theorem handleKeyDown_inRange (p : CarTypesProps) (r s : CarTypes) (key : String)
    (car : VehicleOption) (hn : 0 < (carTypes p).length)
    (h : focusInRange (carTypes p).length s.focusIndex) :
    focusInRange (carTypes p).length (handleKeyDown p r key car s).focusIndex := by
  have hn' : (0 : Int) < ((carTypes p).length : Int) := by exact_mod_cast hn
  obtain ⟨h0, h1⟩ := h
  rw [handleKeyDown_focusIndex]
  simp only [focusInRange]
  split_ifs <;> constructor <;> omega

theorem selectTimeoutFire_focusIndex (t : PendingSelect) (s : CarTypes) :
    (selectTimeoutFire t s).focusIndex = s.focusIndex := by
  unfold selectTimeoutFire
  cases t.onCarSelect with
  | none => rfl
  | some f =>
    simp only []
    cases f t.car <;> rfl

theorem runEffects_inRange (old new : CarTypesProps) (fresh : Bool) (s : CarTypes)
    (h : focusInRange (carTypes old).length s.focusIndex) :
    focusInRange (carTypes new).length (runEffects old new fresh s).focusIndex := by
  have h1 : focusInRange (carTypes new).length
      (if (carTypes new).length = (carTypes old).length then s
        else reclamp (carTypes new).length s).focusIndex := by
    split_ifs with hl
    · rw [hl]
      exact h
    · exact reclamp_inRange _ s h.1
  unfold runEffects
  simp only []
  by_cases hc : new.selectedCar.map (fun c => c.id) = old.selectedCar.map (fun c => c.id)
      ∧ carTypes new = carTypes old ∧ fresh = false
  · rw [if_pos hc]
    exact h1
  · rw [if_neg hc]
    exact focusSelected_inRange new _ h1

theorem focusInRange_step (v : CarTypesView) (e : CarTypesEvent)
    (h : focusInRange (carTypes v.props).length v.state.focusIndex)
    (he : carTypesEnabled v e = true) :
    focusInRange (carTypes (carTypesStep v e).props).length
      (carTypesStep v e).state.focusIndex := by
  cases e with
  | click idx =>
    simp only [carTypesStep]
    cases (carTypes v.props)[idx]? with
    | none => exact h
    | some car =>
      simp only [cardClick]
      split_ifs
      · rw [handleSelect_focusIndex]
        exact h
      · exact h
  | keyDown key idx =>
    have hidx : idx < (carTypes v.props).length := by
      simpa [carTypesEnabled] using he
    simp only [carTypesStep]
    cases (carTypes v.props)[idx]? with
    | none => exact h
    | some car => exact handleKeyDown_inRange v.props v.state v.state key car (by omega) h
  | selectTimeout =>
    simp only [carTypesStep]
    cases ht : v.state.timers with
    | nil => exact h
    | cons t rest =>
      simp only [selectTimeoutFire_focusIndex]
      exact h
  | render props fresh => exact runEffects_inRange v.props props fresh v.state h

theorem focusInRange_reachable (v : CarTypesView) (h : CarTypesReachable v) :
    focusInRange (carTypes v.props).length v.state.focusIndex := by
  induction h with
  | mount p =>
    exact focusSelected_inRange p _ (reclamp_inRange _ _ (by simp [CarTypes.init]))
  | step e v _ he ih => exact focusInRange_step v e ih he

/-- C27: for every option list of length n ≥ 0, the empty list included, the focus index
satisfies 0 ≤ focusIndex ≤ max(0, n-1) after every operation that sets it. It holds in every
state reachable from a mount and after every event the render offers there (a key handled by
`handleKeyDown`, a click, the expiry of a selection delay, a render with new props, which runs
the re-clamp and the external-selection effect); a key is handled only through a rendered
card, so none is handled while the list is empty; the effects of a render keep the bound for
lists of any two lengths, and so do the external selection and the re-clamp on their own. -/
theorem focusIndex_in_range :
    (∀ v, CarTypesReachable v →
        focusInRange (carTypes v.props).length v.state.focusIndex)
      ∧ (∀ (v : CarTypesView) (e : CarTypesEvent), CarTypesReachable v →
          carTypesEnabled v e = true →
          focusInRange (carTypes (carTypesStep v e).props).length
            (carTypesStep v e).state.focusIndex)
      ∧ (∀ (v : CarTypesView) (key : String) (idx : Nat), CarTypesReachable v →
          carTypesEnabled v (CarTypesEvent.keyDown key idx) = true →
          0 < (carTypes v.props).length
            ∧ ∃ car, (carTypes v.props)[idx]? = some car
              ∧ (carTypesStep v (CarTypesEvent.keyDown key idx)).state
                  = handleKeyDown v.props v.state key car v.state
              ∧ focusInRange (carTypes v.props).length
                  (handleKeyDown v.props v.state key car v.state).focusIndex)
      ∧ (∀ (v : CarTypesView) (key : String) (idx : Nat), (carTypes v.props).length = 0 →
          carTypesEnabled v (CarTypesEvent.keyDown key idx) = false)
      ∧ (∀ (old new : CarTypesProps) (fresh : Bool) (s : CarTypes),
          focusInRange (carTypes old).length s.focusIndex →
          focusInRange (carTypes new).length (runEffects old new fresh s).focusIndex)
      ∧ (∀ (p : CarTypesProps) (s : CarTypes),
          focusInRange (carTypes p).length s.focusIndex →
          focusInRange (carTypes p).length (focusSelected p s).focusIndex)
      ∧ (∀ (n : Nat) (s : CarTypes), 0 ≤ s.focusIndex →
          focusInRange n (reclamp n s).focusIndex) := by
  refine ⟨focusInRange_reachable,
    fun v e hv he => focusInRange_step v e (focusInRange_reachable v hv) he, ?_, ?_,
    runEffects_inRange, focusSelected_inRange, reclamp_inRange⟩
  · intro v key idx hv he
    have hidx : idx < (carTypes v.props).length := by
      simpa [carTypesEnabled] using he
    have hget : (carTypes v.props)[idx]? = some ((carTypes v.props)[idx]) :=
      List.getElem?_eq_getElem hidx
    refine ⟨by omega, (carTypes v.props)[idx], hget, ?_, ?_⟩
    · simp only [carTypesStep, hget]
    · exact handleKeyDown_inRange v.props v.state v.state key _ (by omega)
        (focusInRange_reachable v hv)
  · intro v key idx h0
    simp [carTypesEnabled, h0]

theorem focusIndex_in_range_witness :
    focusInRange (carTypes enabledCarProps).length
        (carTypesStep (carTypesMount enabledCarProps)
          (CarTypesEvent.keyDown "End" 0)).state.focusIndex
      ∧ focusInRange (carTypes emptyCarProps).length
          (carTypesMount emptyCarProps).state.focusIndex :=
  ⟨focusIndex_in_range.2.1 _ (CarTypesEvent.keyDown "End" 0)
      (CarTypesReachable.mount enabledCarProps) (by decide),
    focusIndex_in_range.1 _ (CarTypesReachable.mount emptyCarProps)⟩

end RideCab
